import Mathlib

/-!
# EcoSphere: report lifecycle of `script.js`

A shallow embedding of the report store of `src/script.js`: the module-level
variables `currentLocation`, `currentImage` and `reports`, the `localStorage`
entry under `config.storage.reportsKey`, and the functions
`checkFormValidity`, `handleFormSubmit`, `renderReports` (its filter),
`updateStatus`, `deleteReport`, `saveManualLocation`, `calculateDistance` and
the startup load of script.js:62-72; and of the lookups
`getApproxLocationViaIP`, `findNearestMunicipalAuthority` and
`findNearestMunicipalOfficeCoords`, as functions of what their requests give.

Modelling conventions.

* JavaScript numbers that are only stored and passed on (latitude, longitude,
  accuracy, sizes, the threshold) are rationals; every finite double is one.
* `JSON.stringify` is a built-in: the operations take it as the parameter
  `stringify`.  `new Blob([s]).size` is the UTF-8 length of `s`.
* `localStorage.setItem` may throw.  The parameter `out : Nat → Option StoreError`
  gives, for the `n`-th `setItem` call issued so far, the error it throws
  (`none`: the value is stored).  A throwing call leaves the entry as it was.
* DOM effects (`updateStats`, `renderReports`, the modal) do not touch the
  modelled variables and are left out; `alert` calls are logged.
* The members of `Math` are a parameter of `calculateDistance`; theorems on
  distances are over the real numbers with the exact functions (`realMath`).
  `NaN` is `none`; rounding of doubles is not modelled, so that the `NaN`
  which `calculateDistance` returns in doubles at some antipodal points does
  not occur in the model.
* A request is modelled by what it gives (`FetchResult`); the delay between
  failed searches is not modelled.
-/

namespace EcoSphere

/-! ## Data model -/

/-- The object assigned to `currentLocation` (script.js:440, 534, 719). -/
structure Coordinate where
  latitude : ℚ
  longitude : ℚ
  accuracy : ℚ
  source : String
deriving DecidableEq

/-- The record assembled at script.js:981-990. -/
structure Report where
  id : String
  image : String
  latitude : ℚ
  longitude : ℚ
  description : String
  status : String
  date : String
  timestamp : Int
deriving DecidableEq

/-- The part of `config` read by the report store (script.js:8-60):
`config.storage.maxStorageSize`, `config.storage.storageThreshold` and
`config.status.default`; `none` stands for an undefined property. -/
structure Config where
  maxStorageSize : ℚ
  storageThreshold : Option ℚ
  statusDefault : Option String
deriving DecidableEq

/-- The fallback object of script.js:8-60. -/
def defaultConfig : Config :=
  { maxStorageSize := 4 * 1024 * 1024
    storageThreshold := some (9 / 10)
    statusDefault := some "reported" }

/-- What `localStorage.setItem` may throw, as the `catch` of script.js:1019-1043
tells them apart: `error.name === 'QuotaExceededError' || error.code === 22`,
or anything else. -/
inductive StoreError where
  | quotaExceeded
  | other
deriving DecidableEq

/-- The `alert` calls of the modelled functions. -/
inductive Alert where
  | locationRequired
  | storageFullRemoveOld
  | removedOldTryAgain
  | deleteManually
  | storageFull
  | errorSaving
  | invalidCoordinates
  | latitudeOutOfRange
  | longitudeOutOfRange
deriving DecidableEq

/-- The module-level variables of script.js:2-4 together with the persisted
entry: `stored` is `localStorage.getItem(config.storage.reportsKey)`, `writes`
the payloads of the `setItem` calls issued so far, oldest first. -/
structure AppState where
  currentLocation : Option Coordinate
  currentImage : Option String
  reports : List Report
  stored : Option String
  writes : List String
  alerts : List Alert
deriving DecidableEq

/-- What the environment supplies to one run of `handleFormSubmit`: the two
readings of `Date.now()` (script.js:982, 989), `new Date().toISOString()`
(script.js:988) and `description?.value?.trim()` (script.js:986). -/
structure SubmitEnv where
  nowId : Int
  isoDate : String
  nowTimestamp : Int
  description : Option String

/-! ## JavaScript helpers -/

/-- Truthiness of a value that is a string or `null`/`undefined`. -/
def truthyString : Option String → Bool
  | some s => s != ""
  | none => false

/-- The expression `s || dflt` for a string-or-undefined `s`. -/
def orString (s : Option String) (dflt : String) : String :=
  match s with
  | some v => if v != "" then v else dflt
  | none => dflt

/-- The expression `x || dflt` for a number-or-undefined `x`. -/
def orNumber (x : Option ℚ) (dflt : ℚ) : ℚ :=
  match x with
  | some v => if v != 0 then v else dflt
  | none => dflt

/-- The statement `localStorage.setItem(config.storage.reportsKey, payload)`:
the call is logged; it stores the payload, or throws and stores nothing. -/
def setItem (out : Nat → Option StoreError) (payload : String) (st : AppState) :
    AppState × Option StoreError :=
  match out st.writes.length with
  | none => ({ st with stored := some payload, writes := st.writes ++ [payload] }, none)
  | some e => ({ st with writes := st.writes ++ [payload] }, some e)

/-- Appends an `alert` to the log. -/
def alert (a : Alert) (st : AppState) : AppState :=
  { st with alerts := st.alerts ++ [a] }

/-! ## Form validation and submission -/

/-- The value `checkFormValidity` gives to `submitButton.disabled`
(script.js:955-968). -/
def checkFormValidity (st : AppState) : Bool :=
  if truthyString st.currentImage && st.currentLocation.isSome then false else true

/-- The threshold of script.js:1002-1003:
`maxSize * (config.storage.storageThreshold || 0.9)`. -/
def threshold (cfg : Config) : ℚ :=
  cfg.maxStorageSize * orNumber cfg.storageThreshold (9 / 10)

/-- The size of script.js:1000-1001: `new Blob([JSON.stringify(reports)]).size`. -/
def dataSizeOf (stringify : List Report → String) (reports : List Report) : ℚ :=
  ((stringify reports).utf8ByteSize : ℚ)

/-- The loop of script.js:1007-1009,
`while (reports.length > 0 && dataSize > threshold) reports.pop()`,
run for at most `fuel` iterations.  `dataSize` is the constant of
script.js:1001; the loop does not assign it. -/
def evictLoop (dataSize thr : ℚ) : Nat → List Report → List Report
  | 0, reports => reports
  | fuel + 1, reports =>
    if 0 < reports.length ∧ dataSize > thr then
      evictLoop dataSize thr fuel reports.dropLast
    else reports

/-- The `try` block of script.js:999-1018, started in a state whose `reports`
already holds the new report.  Returns the state reached and the error thrown,
if any. -/
def submitTry (cfg : Config) (stringify : List Report → String)
    (out : Nat → Option StoreError) (st : AppState) : AppState × Option StoreError :=
  let dataSize := dataSizeOf stringify st.reports
  let thr := threshold cfg
  if dataSize > thr then
    let st1 := { st with reports := evictLoop dataSize thr st.reports.length st.reports }
    match setItem out (stringify st1.reports) st1 with
    | (st2, some e) => (st2, some e)
    | (st2, none) =>
      let st3 := alert Alert.storageFullRemoveOld st2
      setItem out (stringify st3.reports) st3
  else
    setItem out (stringify st.reports) st

/-- The `catch` block of script.js:1019-1043; every branch ends in `return`. -/
def submitCatch (stringify : List Report → String) (out : Nat → Option StoreError)
    (e : StoreError) (st : AppState) : AppState :=
  match e with
  | StoreError.quotaExceeded =>
    if st.reports.length > 1 then
      let st1 := { st with reports := st.reports.dropLast }
      match setItem out (stringify st1.reports) st1 with
      | (st2, none) => alert Alert.removedOldTryAgain st2
      | (st2, some _) => alert Alert.deleteManually st2
    else alert Alert.storageFull st
  | StoreError.other => alert Alert.errorSaving st

/-- The assignments of `resetForm` to the modelled variables
(script.js:1070-1072). -/
def resetForm (st : AppState) : AppState :=
  { st with currentImage := none, currentLocation := none }

/-- The report object of script.js:981-990. -/
def newReport (cfg : Config) (env : SubmitEnv) (image : String) (loc : Coordinate) : Report :=
  { id := toString env.nowId
    image := image
    latitude := loc.latitude
    longitude := loc.longitude
    description := orString env.description "No description provided"
    status := orString cfg.statusDefault "reported"
    date := env.isoDate
    timestamp := env.nowTimestamp }

/-- The function `handleFormSubmit` (script.js:971-1068). -/
def handleFormSubmit (cfg : Config) (stringify : List Report → String) (env : SubmitEnv)
    (out : Nat → Option StoreError) (st : AppState) : AppState :=
  match st.currentImage, st.currentLocation with
  | some image, some loc =>
    if image != "" then
      let st1 := { st with reports := newReport cfg env image loc :: st.reports }
      match submitTry cfg stringify out st1 with
      | (st2, some e) => submitCatch stringify out e st2
      | (st2, none) => resetForm st2
    else alert Alert.locationRequired st
  | _, _ => alert Alert.locationRequired st

/-! ## Rendering filter, status update, deletion -/

/-- The list `filteredReports` of `renderReports(filter)` (script.js:1093-1095). -/
def filteredReports (filter : String) (reports : List Report) : List Report :=
  if filter = "all" then reports else reports.filter (fun report => report.status == filter)

/-- The assignment `report.status = newStatus` of script.js:1188, where `report`
is the object returned by `reports.find(r => r.id === reportId)`: the first
element of the array with that id. -/
def setStatusOfFirst (reportId newStatus : String) : List Report → List Report
  | [] => []
  | r :: rs =>
    if r.id == reportId then { r with status := newStatus } :: rs
    else r :: setStatusOfFirst reportId newStatus rs

/-- The function `updateStatus` (script.js:1176-1200).  The second component is
the error that leaves the function uncaught, if any. -/
def updateStatus (stringify : List Report → String) (out : Nat → Option StoreError)
    (reportId newStatus : String) (st : AppState) : AppState × Option StoreError :=
  match st.reports.find? (fun r => r.id == reportId) with
  | some report =>
    let oldStatus := report.status
    if oldStatus = newStatus then (st, none)
    else
      let st1 := { st with reports := setStatusOfFirst reportId newStatus st.reports }
      setItem out (stringify st1.reports) st1
  | none => (st, none)

/-- The function `deleteReport` (script.js:1203-1213); `confirmed` is the answer
of `confirm(...)`.  The second component is the error that leaves the function
uncaught, if any. -/
def deleteReport (stringify : List Report → String) (out : Nat → Option StoreError)
    (confirmed : Bool) (reportId : String) (st : AppState) : AppState × Option StoreError :=
  if confirmed then
    let st1 := { st with reports := st.reports.filter (fun r => r.id != reportId) }
    setItem out (stringify st1.reports) st1
  else (st, none)

/-! ## Distance -/

/-- The members of the built-in `Math` object that `calculateDistance` uses,
over a number type `F`. -/
structure MathOps (F : Type) where
  PI : F
  sin : F → F
  cos : F → F
  sqrt : F → F
  atan2 : F → F → F

/-- The function `calculateDistance` (script.js:941-952), over the number type
`F` and the `Math` members `M`. -/
def calculateDistance {F : Type} [Field F] (M : MathOps F) (lat1 lon1 lat2 lon2 : F) : F :=
  let R : F := 6371
  let dLat := (lat2 - lat1) * M.PI / 180
  let dLon := (lon2 - lon1) * M.PI / 180
  let a :=
    M.sin (dLat / 2) * M.sin (dLat / 2) +
    M.cos (lat1 * M.PI / 180) * M.cos (lat2 * M.PI / 180) *
    M.sin (dLon / 2) * M.sin (dLon / 2)
  let c := 2 * M.atan2 (M.sqrt a) (M.sqrt (1 - a))
  let distance := R * c
  distance

/-- The `Math` members over the real numbers, the exact functions that the
double-precision ones approximate; `Math.atan2(y, x)` is the argument of
`x + y i`.  Theorems over `realMath` are about the formula in exact arithmetic;
they carry over to the doubles of the script only where rounding cannot change
the result. -/
noncomputable def realMath : MathOps ℝ :=
  { PI := Real.pi
    sin := Real.sin
    cos := Real.cos
    sqrt := Real.sqrt
    atan2 := fun y x => Complex.arg ⟨x, y⟩ }

/-! ## A plain serializer for concrete runs -/

/-- The JSON text of a number that is an integer. -/
def numberText (q : ℚ) : String :=
  if q.den = 1 then toString q.num else toString q.num ++ "/" ++ toString q.den

/-- The text `JSON.stringify` gives for one report whose strings need no
escaping and whose numbers are integers. -/
def reportText (r : Report) : String :=
  "\x7b\"id\":\"" ++ r.id ++ "\",\"image\":\"" ++ r.image ++
  "\",\"latitude\":" ++ numberText r.latitude ++
  ",\"longitude\":" ++ numberText r.longitude ++
  ",\"description\":\"" ++ r.description ++ "\",\"status\":\"" ++ r.status ++
  "\",\"date\":\"" ++ r.date ++ "\",\"timestamp\":" ++ toString r.timestamp ++ "\x7d"

/-- The text `JSON.stringify` gives for an array of such reports; used as the
`stringify` argument at concrete inputs. -/
def stringifyPlain (reports : List Report) : String :=
  "[" ++ ",".intercalate (reports.map reportText) ++ "]"

/-! ## Sample data -/

/-- A stored report, status `reported`. -/
def sampleOld : Report :=
  { id := "1700000000000", image := "data:image/jpeg;base64,AAAA", latitude := 28, longitude := 77
    description := "Overflowing bin", status := "reported"
    date := "2023-11-14T22:13:20.000Z", timestamp := 1700000000000 }

/-- A second, older stored report, status `resolved`. -/
def sampleOlder : Report :=
  { id := "1600000000000", image := "data:image/jpeg;base64,BBBB", latitude := 19, longitude := 72
    description := "Litter on the beach", status := "resolved"
    date := "2020-09-13T12:26:40.000Z", timestamp := 1600000000000 }

/-- A device coordinate. -/
def sampleLocation : Coordinate :=
  { latitude := 12, longitude := 77, accuracy := 15, source := "device" }

/-- The environment of one submission. -/
def sampleEnv : SubmitEnv :=
  { nowId := 1800000000000, isoDate := "2027-01-15T08:00:00.000Z"
    nowTimestamp := 1800000000000, description := some "Pile of bags" }

/-- The report `handleFormSubmit` assembles from `sampleEnv`, the image
`data:image/jpeg;base64,CCCC` and `sampleLocation` under `defaultConfig`. -/
def sampleNew : Report :=
  { id := "1800000000000", image := "data:image/jpeg;base64,CCCC", latitude := 12, longitude := 77
    description := "Pile of bags", status := "reported"
    date := "2027-01-15T08:00:00.000Z", timestamp := 1800000000000 }

/-- A state with a pending submission (image and coordinate present) and the
given collection, in step with the store. -/
def pendingState (reports : List Report) : AppState :=
  { currentLocation := some sampleLocation
    currentImage := some "data:image/jpeg;base64,CCCC"
    reports := reports
    stored := some (stringifyPlain reports)
    writes := []
    alerts := [] }

/-- A store that accepts every write. -/
def storeOk : Nat → Option StoreError := fun _ => none

/-- A store whose first write raises quota-exceeded and that accepts the rest. -/
def storeQuotaOnce : Nat → Option StoreError
  | 0 => some StoreError.quotaExceeded
  | _ => none

/-- A store that raises quota-exceeded on every write. -/
def storeQuotaAlways : Nat → Option StoreError := fun _ => some StoreError.quotaExceeded

/-- A store whose first two writes raise quota-exceeded and that accepts the
rest. -/
def storeQuotaTwice : Nat → Option StoreError
  | 0 => some StoreError.quotaExceeded
  | 1 => some StoreError.quotaExceeded
  | _ => none

/-- The default configuration with another `maxStorageSize`. -/
def configWithMax (maxSize : ℚ) : Config :=
  { defaultConfig with maxStorageSize := maxSize }

/-- The state `handleFormSubmit` leaves from `pendingState [sampleOld]` when
both the write and the retry raise quota-exceeded: the new report is in memory,
the oldest one is dropped, the store still holds the old collection. -/
def outOfStepState : AppState :=
  { currentLocation := some sampleLocation
    currentImage := some "data:image/jpeg;base64,CCCC"
    reports := [sampleNew]
    stored := some (stringifyPlain [sampleOld])
    writes := [stringifyPlain [sampleNew, sampleOld], stringifyPlain [sampleNew]]
    alerts := [Alert.deleteManually] }

/-! ## Network responses -/

/-- What `await res.json()` gives: a rejection (the body is not JSON), a falsy
value such as `null`, or a value. -/
inductive Body (α : Type) where
  | malformed
  | null
  | value (a : α)

/-- What `await fetch(url)` gives: a rejection, or a response with its status
and body. -/
inductive FetchResult (α : Type) where
  | networkError
  | response (status : Nat) (body : Body α)

/-- The property `res.ok`: the status is in the range 200-299. -/
def statusOk (status : Nat) : Bool :=
  decide (200 ≤ status) && decide (status ≤ 299)

/-- A thrown value: the rejection of `fetch`, the rejection of `res.json()`,
`new Error(message)`, or the `ReferenceError` for a name that is not in scope. -/
inductive JsError where
  | network
  | syntaxError
  | error (message : String)
  | referenceError (name : String)
deriving DecidableEq

/-! ## IP geolocation -/

/-- The fields of an IP provider's JSON object that the providers read;
`none` stands for a missing field. -/
structure IpData where
  success : Option Bool
  latitude : Option ℚ
  longitude : Option ℚ

/-- Truthiness of a value that is a number or `undefined`. -/
def truthyNumber : Option ℚ → Bool
  | some v => v != 0
  | none => false

/-- The first provider of `getApproxLocationViaIP` (script.js:606-612), as a
function of what its `fetch` gives. -/
def ipapiProvider (r : FetchResult IpData) : Except JsError (ℚ × ℚ) :=
  match r with
  | FetchResult.networkError => Except.error JsError.network
  | FetchResult.response status body =>
    if !statusOk status then Except.error (JsError.error "ipapi.co failed")
    else
      match body with
      | Body.malformed => Except.error JsError.syntaxError
      | Body.null => Except.error (JsError.error "ipapi.co invalid")
      | Body.value data =>
        match data.latitude, data.longitude with
        | some la, some lo =>
          if !(la != 0) || !(lo != 0) then Except.error (JsError.error "ipapi.co invalid")
          else Except.ok (la, lo)
        | _, _ => Except.error (JsError.error "ipapi.co invalid")

/-- The second provider of `getApproxLocationViaIP` (script.js:613-619). -/
def ipwhoProvider (r : FetchResult IpData) : Except JsError (ℚ × ℚ) :=
  match r with
  | FetchResult.networkError => Except.error JsError.network
  | FetchResult.response status body =>
    if !statusOk status then Except.error (JsError.error "ipwho.is failed")
    else
      match body with
      | Body.malformed => Except.error JsError.syntaxError
      | Body.null => Except.error (JsError.error "ipwho.is invalid")
      | Body.value data =>
        if data.success != some true then Except.error (JsError.error "ipwho.is invalid")
        else
          match data.latitude, data.longitude with
          | some la, some lo =>
            if !(la != 0) || !(lo != 0) then Except.error (JsError.error "ipwho.is invalid")
            else Except.ok (la, lo)
          | _, _ => Except.error (JsError.error "ipwho.is invalid")

/-- The loop of script.js:622-636 over what the providers give when called, in
list order.  Returns the value returned or thrown, and the number of providers
called. -/
def providerLoop (lastError : Option JsError) :
    List (Except JsError (ℚ × ℚ)) → Except JsError Coordinate × Nat
  | [] =>
    (Except.error (lastError.getD (JsError.error "IP-based geolocation failed")), 0)
  | Except.ok coords :: _ =>
    (Except.ok
      { latitude := coords.1, longitude := coords.2, accuracy := 50000, source := "ip" }, 1)
  | Except.error e :: rest =>
    ((providerLoop (some e) rest).1, (providerLoop (some e) rest).2 + 1)

/-- The function `getApproxLocationViaIP` (script.js:603-637); `r1` and `r2`
are what the requests to ipapi.co and to ipwho.is give. -/
def getApproxLocationViaIP (r1 r2 : FetchResult IpData) : Except JsError Coordinate × Nat :=
  providerLoop none [ipapiProvider r1, ipwhoProvider r2]

/-! ## Municipal lookup -/

/-- The fields of `data.address` that the lookups read (script.js:781-785). -/
structure Address where
  city : Option String
  town : Option String
  village : Option String
  municipality : Option String
  county : Option String
  state : Option String
  region : Option String
  country : Option String
  postcode : Option String

/-- The JSON object of a reverse-geocode response; `none` stands for a missing
`address`. -/
structure ReverseData where
  address : Option Address

/-- One element of a place-search response: `lat` and `lon` are
`parseFloat(office.lat)` and `parseFloat(office.lon)`, `none` for `NaN`. -/
structure SearchItem (F : Type) where
  lat : Option F
  lon : Option F
  display_name : String

/-- The comparison `x < y` of two numbers, `none` standing for `NaN`. -/
def jsLt {D : Type} [LinearOrder D] : Option D → Option D → Bool
  | some x, some y => decide (x < y)
  | _, _ => false

/-- The call `calculateDistance(lat, lon, parseFloat(it.lat), parseFloat(it.lon))`;
a `NaN` argument gives `NaN`.  The arithmetic is that of `F`: for two numbers
the result is a number, which is what exact arithmetic gives; the `NaN` that
rounding produces in doubles at antipodal points is not modelled. -/
def distanceTo {F : Type} [LinearOrderedField F] (M : MathOps F) (lat lon : F)
    (it : SearchItem F) : Option F :=
  match it.lat, it.lon with
  | some la, some lo => some (calculateDistance M lat lon la lo)
  | _, _ => none

/-- The inner loop of script.js:839-849, from the pair `(minDistance,
closestOffice)` before it to the pair after it. -/
def closestLoop {F : Type} [LinearOrderedField F] (M : MathOps F) (lat lon : F) :
    Option F × SearchItem F → List (SearchItem F) → Option F × SearchItem F
  | acc, [] => acc
  | (minDistance, closestOffice), office :: rest =>
    match office.lat, office.lon with
    | some officeLat, some officeLon =>
      let distance := calculateDistance M lat lon officeLat officeLon
      if jsLt (some distance) minDistance then
        closestLoop M lat lon (some distance, office) rest
      else closestLoop M lat lon (minDistance, closestOffice) rest
    | _, _ => closestLoop M lat lon (minDistance, closestOffice) rest

/-- The closest pick of script.js:836-851 on the non-empty array
`first :: rest`. -/
def closestOffice {F : Type} [LinearOrderedField F] (M : MathOps F) (lat lon : F)
    (first : SearchItem F) (rest : List (SearchItem F)) : SearchItem F :=
  (closestLoop M lat lon (distanceTo M lat lon first, first) (first :: rest)).2

/-- The inner loop of script.js:1325-1328, which has no `isNaN` test. -/
def closestLoopCoords {F : Type} [LinearOrderedField F] (M : MathOps F) (lat lon : F) :
    Option F × SearchItem F → List (SearchItem F) → Option F × SearchItem F
  | acc, [] => acc
  | (minDist, closest), it :: rest =>
    let d := distanceTo M lat lon it
    if jsLt d minDist then closestLoopCoords M lat lon (d, it) rest
    else closestLoopCoords M lat lon (minDist, closest) rest

/-- The closest pick of script.js:1323-1328 on the non-empty array
`first :: rest`. -/
def closestOfficeCoords {F : Type} [LinearOrderedField F] (M : MathOps F) (lat lon : F)
    (first : SearchItem F) (rest : List (SearchItem F)) : SearchItem F :=
  (closestLoopCoords M lat lon (distanceTo M lat lon first, first) (first :: rest)).2

/-- The array `searchTerms` of script.js:789-810. -/
def searchTerms (city state : String) : List String :=
  (if city != "" then
    [city ++ " municipal corporation", city ++ " municipal office",
      city ++ " city corporation", city ++ " municipality",
      "municipal corporation " ++ city, city ++ " waste management",
      city ++ " sanitation department"]
  else []) ++
  (if state != "" then [state ++ " municipal office"] else []) ++
  (if !(city != "") && state != "" then [state ++ " municipal corporation"] else [])

/-- The loop of script.js:816-862 over the search terms; `search term` is what
the request for `term` gives.  Returns `municipalOffice` and the terms
queried, in order. -/
def searchLoop {F : Type} [LinearOrderedField F] (M : MathOps F) (lat lon : F)
    (search : String → FetchResult (List (SearchItem F))) :
    List String → Option (SearchItem F) × List String
  | [] => (none, [])
  | term :: rest =>
    match search term with
    | FetchResult.networkError =>
      ((searchLoop M lat lon search rest).1, term :: (searchLoop M lat lon search rest).2)
    | FetchResult.response status body =>
      if status = 429 then
        ((searchLoop M lat lon search rest).1, term :: (searchLoop M lat lon search rest).2)
      else if statusOk status then
        match body with
        | Body.value (first :: others) => (some (closestOffice M lat lon first others), [term])
        | _ =>
          ((searchLoop M lat lon search rest).1, term :: (searchLoop M lat lon search rest).2)
      else
        ((searchLoop M lat lon search rest).1, term :: (searchLoop M lat lon search rest).2)

/-- How `findNearestMunicipalAuthority` ends: it shows the office found, it
shows the general administrative information (no office), or it ends in the
uncaught error `e` with nothing shown beyond the loading text. -/
inductive MunicipalOutcome (F : Type) where
  | office (o : SearchItem F)
  | noOffice (city state county postalCode country : String)
  | error (e : JsError)

/-- The message of the `catch` of script.js:767-770. -/
def unableToConnect : JsError :=
  JsError.error
    "Unable to connect to geocoding service. Please check your internet connection."

/-- The error thrown inside the `try` of script.js:752-766 for a response, if
any: the rate-limit error for status 429, the status error for another non-OK
status. -/
def reverseStatusError (status : Nat) : Option JsError :=
  if status = 429 then some (JsError.error "Rate limit exceeded. Please try again in a moment.")
  else if !statusOk status then
    some (JsError.error ("Reverse geocoding failed: " ++ toString status))
  else none

/-- The `try` block of `findNearestMunicipalAuthority` (script.js:747-924) with
the two display elements present; `reverse` is what the reverse-geocode request
gives.  Returns the error thrown to the `catch` of script.js:926, or what the
block shows, and the search terms queried.  The `catch` of script.js:767-770
replaces every error of the reverse-geocode request by `unableToConnect`. -/
def authorityTry {F : Type} [LinearOrderedField F] (M : MathOps F)
    (reverse : FetchResult ReverseData)
    (search : String → FetchResult (List (SearchItem F))) (lat lon : F) :
    Except JsError (MunicipalOutcome F) × List String :=
  match reverse with
  | FetchResult.networkError => (Except.error unableToConnect, [])
  | FetchResult.response status body =>
    match reverseStatusError status with
    | some _ => (Except.error unableToConnect, [])
    | none =>
      match body with
      | Body.malformed => (Except.error JsError.syntaxError, [])
      | Body.null =>
        (Except.error (JsError.error "No address data found for this location"), [])
      | Body.value data =>
        match data.address with
        | none =>
          (Except.error (JsError.error "No address data found for this location"), [])
        | some address =>
          let city := orString address.city (orString address.town (orString address.village
            (orString address.municipality (orString address.county ""))))
          let state := orString address.state (orString address.region "")
          let country := orString address.country ""
          let postalCode := orString address.postcode ""
          let county := orString address.county ""
          match searchLoop M lat lon search (searchTerms city state) with
          | (some municipalOffice, queried) =>
            (Except.ok (MunicipalOutcome.office municipalOffice), queried)
          | (none, queried) =>
            (Except.ok (MunicipalOutcome.noOffice city state county postalCode country),
              queried)

/-- The function `findNearestMunicipalAuthority` (script.js:740-938) with the
two display elements present.  Returns how it ends and the search terms
queried.  The `catch` of script.js:926-937 builds its message from `city`, a
`const` of the `try` block that is not in scope there: evaluating it throws a
`ReferenceError` before anything is shown, whatever the error caught. -/
def findNearestMunicipalAuthority {F : Type} [LinearOrderedField F] (M : MathOps F)
    (reverse : FetchResult ReverseData)
    (search : String → FetchResult (List (SearchItem F))) (lat lon : F) :
    MunicipalOutcome F × List String :=
  match authorityTry M reverse search lat lon with
  | (Except.ok shown, queried) => (shown, queried)
  | (Except.error _, queried) =>
    (MunicipalOutcome.error (JsError.referenceError "city"), queried)

/-- The object `best` of script.js:1329. -/
structure OfficeCoords (F : Type) where
  lat : Option F
  lon : Option F
  name : String

/-- The loop of script.js:1316-1331; a rejected `fetch` or `res.json()` leaves
the function through its `catch`, which returns `null`.  Returns `best` and the
terms queried. -/
def coordsLoop {F : Type} [LinearOrderedField F] (M : MathOps F) (lat lon : F)
    (search : String → FetchResult (List (SearchItem F))) :
    List String → Option (OfficeCoords F) × List String
  | [] => (none, [])
  | term :: rest =>
    match search term with
    | FetchResult.networkError => (none, [term])
    | FetchResult.response status body =>
      if !statusOk status then
        ((coordsLoop M lat lon search rest).1, term :: (coordsLoop M lat lon search rest).2)
      else
        match body with
        | Body.malformed => (none, [term])
        | Body.null =>
          ((coordsLoop M lat lon search rest).1, term :: (coordsLoop M lat lon search rest).2)
        | Body.value [] =>
          ((coordsLoop M lat lon search rest).1, term :: (coordsLoop M lat lon search rest).2)
        | Body.value (first :: others) =>
          (some
            { lat := (closestOfficeCoords M lat lon first others).lat
              lon := (closestOfficeCoords M lat lon first others).lon
              name := (closestOfficeCoords M lat lon first others).display_name }, [term])

/-- The array `searchTerms` of script.js:1307-1313. -/
def searchTermsCoords (city : String) : List String :=
  [city ++ " municipal corporation", city ++ " municipal office",
    city ++ " city corporation", city ++ " municipality", "municipal corporation " ++ city]

/-- The function `findNearestMunicipalOfficeCoords` (script.js:1297-1336).
Returns the value returned (`none` for `null`) and the search terms queried. -/
def findNearestMunicipalOfficeCoords {F : Type} [LinearOrderedField F] (M : MathOps F)
    (reverse : FetchResult ReverseData)
    (search : String → FetchResult (List (SearchItem F))) (lat lon : F) :
    Option (OfficeCoords F) × List String :=
  match reverse with
  | FetchResult.networkError => (none, [])
  | FetchResult.response status body =>
    if !statusOk status then (none, [])
    else
      match body with
      | Body.malformed => (none, [])
      | Body.null => coordsLoop M lat lon search (searchTermsCoords "")
      | Body.value data =>
        match data.address with
        | none => coordsLoop M lat lon search (searchTermsCoords "")
        | some address =>
          let city := orString address.city (orString address.town (orString address.village
            (orString address.municipality "")))
          coordsLoop M lat lon search (searchTermsCoords city)

/-- The haversine term `a` of script.js:945-948. -/
def haversineTerm {F : Type} [Field F] (M : MathOps F) (lat1 lon1 lat2 lon2 : F) : F :=
  let dLat := (lat2 - lat1) * M.PI / 180
  let dLon := (lon2 - lon1) * M.PI / 180
  M.sin (dLat / 2) * M.sin (dLat / 2) +
    M.cos (lat1 * M.PI / 180) * M.cos (lat2 * M.PI / 180) *
    M.sin (dLon / 2) * M.sin (dLon / 2)

/-- The results a place search returns: the array of an OK response, and no
result for a rejected request, a non-OK status, a body that is not JSON or a
falsy body. -/
def resultsOf {α : Type} : FetchResult (List α) → List α
  | FetchResult.response status (Body.value items) => if statusOk status then items else []
  | _ => []

/-- Whether the loop of script.js:1316-1331 skips the term (`continue`): the
status is not OK, or the body is falsy or an empty array. -/
def coordsSkips {α : Type} : FetchResult (List α) → Bool
  | FetchResult.networkError => false
  | FetchResult.response status body =>
    if !statusOk status then true
    else
      match body with
      | Body.null => true
      | Body.value [] => true
      | _ => false

/-- Whether the term ends `findNearestMunicipalOfficeCoords` through its
`catch`: the request is rejected, or the body of an OK response is not JSON. -/
def coordsAborts {α : Type} : FetchResult (List α) → Bool
  | FetchResult.networkError => true
  | FetchResult.response status Body.malformed => statusOk status
  | _ => false

/-! ## Sample responses -/

/-- An IP provider's object with the given pair and `success: true`. -/
def ipData (latitude longitude : ℚ) : IpData :=
  { success := some true, latitude := some latitude, longitude := some longitude }

/-- A reverse-geocode object without `address`. -/
def noAddress : ReverseData := { address := none }

/-- A search result without usable coordinates. -/
def itemNoCoords : SearchItem ℝ :=
  { lat := none, lon := none, display_name := "Town Hall, Sample Road" }

/-- A search result at 28.6 N 77.2 E. -/
def itemNear : SearchItem ℝ :=
  { lat := some 28.6, lon := some 77.2, display_name := "Municipal Corporation, New Delhi" }

/-- A search result at 28.6139 N 77.2090 E. -/
def itemHere : SearchItem ℝ :=
  { lat := some 28.6139, lon := some 77.2090, display_name := "Civic Centre, New Delhi" }

/-- A place search that answers every term with the one result `itemNear`. -/
def searchAlwaysNear : String → FetchResult (List (SearchItem ℝ)) :=
  fun _ => FetchResult.response 200 (Body.value [itemNear])

/-- A place search that answers every term with an empty array. -/
def searchNothing : String → FetchResult (List (SearchItem ℝ)) :=
  fun _ => FetchResult.response 200 (Body.value [])

/-- A place search that is rate-limited on every term but `Delhi municipal
office`, for which it answers with `itemNear` and `itemHere`. -/
def searchSecondTerm : String → FetchResult (List (SearchItem ℝ)) :=
  fun term =>
    if term = "Delhi municipal office" then
      FetchResult.response 200 (Body.value [itemNear, itemHere])
    else FetchResult.response 429 Body.malformed

/-! ## Startup load -/

/-- What `JSON.parse` returns for the stored entry: a JSON array, here of
reports, the value `null`, or another JSON value (a number, a string, a
boolean or an object), kept as its text. -/
inductive Loaded where
  | sequence (reports : List Report)
  | null
  | notArray (json : String)
deriving DecidableEq

/-- Whether the loaded value is an array. -/
def Loaded.isSequence : Loaded → Bool
  | Loaded.sequence _ => true
  | Loaded.null => false
  | Loaded.notArray _ => false

/-- The value of `reports` after the top-level block of script.js:62-72.
`getItem` is what `localStorage.getItem(config.storage.reportsKey)` gives:
`none` when the call throws, `some none` for `null`, `some (some s)` for the
string `s`.  `parse` is `JSON.parse`, `none` when it throws.  Before the block
`reports` is `[]` (script.js:4).  After the assignment of script.js:66 the
block reads `reports.length` (script.js:67): on `null` the read throws and the
`catch` sets `reports = []`; on every other value it does not throw. -/
def loadReports (parse : String → Option Loaded) (getItem : Option (Option String)) : Loaded :=
  match getItem with
  | none => Loaded.sequence []
  | some stored =>
    if truthyString stored then
      match stored.bind parse with
      | some Loaded.null => Loaded.sequence []
      | some value => value
      | none => Loaded.sequence []
    else Loaded.sequence []

/-- The function `JSON.parse` on the three texts `null`, `[]` and the empty
object; used as the `parse` argument at these three texts only. -/
def parseSample (text : String) : Option Loaded :=
  if text = "null" then some Loaded.null
  else if text = "[]" then some (Loaded.sequence [])
  else if text = "\x7b\x7d" then some (Loaded.notArray "\x7b\x7d")
  else none

/-! ## Sequences of submissions -/

/-- One submission: the image and the coordinate attached before the form is
submitted, and what the environment supplies to `handleFormSubmit`. -/
structure Submission where
  env : SubmitEnv
  image : String
  location : Coordinate

/-- The assignments `currentImage = compressedImage` (script.js:424) and
`currentLocation = location` (script.js:534) that precede a submission. -/
def withPending (image : String) (location : Coordinate) (st : AppState) : AppState :=
  { st with currentImage := some image, currentLocation := some location }

/-- A run of submissions, in order, each `handleFormSubmit` preceded by the
assignments of `withPending`. -/
def submitAll (cfg : Config) (stringify : List Report → String)
    (out : Nat → Option StoreError) : List Submission → AppState → AppState
  | [], st => st
  | s :: rest, st =>
    submitAll cfg stringify out rest
      (handleFormSubmit cfg stringify s.env out (withPending s.image s.location st))

/-- The state at startup with nothing stored: no image, no coordinate, no
report (script.js:2-4). -/
def initialState : AppState :=
  { currentLocation := none, currentImage := none, reports := [], stored := none
    writes := [], alerts := [] }

/-- The statuses of `config.status.options` (script.js:33). -/
def isStatusOption (status : String) : Bool :=
  status == "reported" || status == "in-progress" || status == "resolved"

/-- The sample submission: `sampleEnv`, the image of `pendingState` and
`sampleLocation`. -/
def sampleSubmission : Submission :=
  { env := sampleEnv, image := "data:image/jpeg;base64,CCCC", location := sampleLocation }

/-- A store that raises an error other than quota-exceeded on every write. -/
def storeErrorAlways : Nat → Option StoreError := fun _ => some StoreError.other

/-! ## Manual location -/

/-- What `parseFloat` returns. -/
inductive ParsedFloat where
  | nan
  | infinity
  | negInfinity
  | finite (value : ℚ)
deriving DecidableEq

/-- The test `isNaN(x)`. -/
def ParsedFloat.isNaN : ParsedFloat → Bool
  | ParsedFloat.nan => true
  | _ => false

/-- The comparison `x < c` with a finite number `c`. -/
def ParsedFloat.lt (x : ParsedFloat) (c : ℚ) : Bool :=
  match x with
  | ParsedFloat.nan => false
  | ParsedFloat.infinity => false
  | ParsedFloat.negInfinity => true
  | ParsedFloat.finite v => decide (v < c)

/-- The comparison `x > c` with a finite number `c`. -/
def ParsedFloat.gt (x : ParsedFloat) (c : ℚ) : Bool :=
  match x with
  | ParsedFloat.nan => false
  | ParsedFloat.infinity => true
  | ParsedFloat.negInfinity => false
  | ParsedFloat.finite v => decide (v > c)

/-- The function `saveManualLocation` (script.js:698-737); `lat` and `lon` are
`parseFloat(manualLatitude.value)` and `parseFloat(manualLongitude.value)`.
A number that passes the three tests is finite, which the last `match` reads
off. -/
def saveManualLocation (lat lon : ParsedFloat) (st : AppState) : AppState :=
  if lat.isNaN || lon.isNaN then alert Alert.invalidCoordinates st
  else if lat.lt (-90) || lat.gt 90 then alert Alert.latitudeOutOfRange st
  else if lon.lt (-180) || lon.gt 180 then alert Alert.longitudeOutOfRange st
  else
    match lat, lon with
    | ParsedFloat.finite la, ParsedFloat.finite lo =>
      { st with
        currentLocation :=
          some { latitude := la, longitude := lo, accuracy := 0, source := "manual" } }
    | _, _ => st

/-- The value of a digit character. -/
def digitValue (c : Char) : Nat := c.toNat - 48

/-- The number a list of digit characters writes, most significant first. -/
def digitsValue (cs : List Char) : Nat :=
  cs.foldl (fun acc c => acc * 10 + digitValue c) 0

/-! ## Lemmas on the pieces of `handleFormSubmit` -/

theorem setItem_reports (out : Nat → Option StoreError) (payload : String) (st : AppState) :
    (setItem out payload st).1.reports = st.reports := by
  unfold setItem
  cases out st.writes.length <;> rfl

theorem setItem_snd (out : Nat → Option StoreError) (payload : String) (st : AppState) :
    (setItem out payload st).2 = out st.writes.length := by
  unfold setItem
  cases out st.writes.length <;> rfl

theorem setItem_writes (out : Nat → Option StoreError) (payload : String) (st : AppState) :
    (setItem out payload st).1.writes = st.writes ++ [payload] := by
  unfold setItem
  cases out st.writes.length <;> rfl

theorem setItem_stored (out : Nat → Option StoreError) (payload : String) (st : AppState) :
    (setItem out payload st).1.stored =
      if out st.writes.length = none then some payload else st.stored := by
  unfold setItem
  cases out st.writes.length <;> simp

/-- With the stale `dataSize` above the threshold and fuel for every element,
the loop of script.js:1007-1009 pops until the array is empty. -/
theorem evictLoop_of_gt (dataSize thr : ℚ) (h : dataSize > thr) :
    ∀ (fuel : Nat) (reports : List Report), reports.length ≤ fuel →
      evictLoop dataSize thr fuel reports = []
  | 0, reports, hf => by
    have : reports = [] := List.length_eq_zero.mp (Nat.le_zero.mp hf)
    simp [evictLoop, this]
  | fuel + 1, reports, hf => by
    unfold evictLoop
    by_cases hl : 0 < reports.length
    · rw [if_pos ⟨hl, h⟩]
      apply evictLoop_of_gt dataSize thr h fuel
      rw [List.length_dropLast]
      omega
    · have : reports = [] := List.length_eq_zero.mp (by omega)
      simp [this]

/-- Below or at the threshold the loop of script.js:1007-1009 does not run. -/
theorem evictLoop_of_le (dataSize thr : ℚ) (h : ¬ dataSize > thr) (fuel : Nat)
    (reports : List Report) : evictLoop dataSize thr fuel reports = reports := by
  cases fuel with
  | zero => rfl
  | succ n => simp [evictLoop, h]

/-- With fuel for every element the loop of script.js:1007-1009 runs to its
exit: the loop condition is false on what it returns. -/
theorem evictLoop_exit (dataSize thr : ℚ) (fuel : Nat) (reports : List Report)
    (hf : reports.length ≤ fuel) :
    ¬ (0 < (evictLoop dataSize thr fuel reports).length ∧ dataSize > thr) := by
  by_cases h : dataSize > thr
  · rw [evictLoop_of_gt dataSize thr h fuel reports hf]
    simp
  · exact fun hc => h hc.2

theorem alert_reports (a : Alert) (st : AppState) : (alert a st).reports = st.reports := rfl

theorem resetForm_reports (st : AppState) : (resetForm st).reports = st.reports := rfl

/-- The collection after the catch block of script.js:1019-1043. -/
theorem submitCatch_reports (stringify : List Report → String)
    (out : Nat → Option StoreError) (e : StoreError) (st : AppState) :
    (submitCatch stringify out e st).reports =
      if e = StoreError.quotaExceeded ∧ 1 < st.reports.length then st.reports.dropLast
      else st.reports := by
  unfold submitCatch
  cases e with
  | other => simp [alert_reports]
  | quotaExceeded =>
    by_cases h : 1 < st.reports.length
    · simp only [gt_iff_lt, h, if_true, and_self]
      generalize hres : setItem out _ _ = res
      obtain ⟨st2, o⟩ := res
      have hr := setItem_reports out (stringify st.reports.dropLast)
        { st with reports := st.reports.dropLast }
      rw [hres] at hr
      cases o <;> simpa [alert_reports] using hr
    · simp [h, alert_reports]

/-- The collection after the try block of script.js:999-1018. -/
theorem submitTry_reports (cfg : Config) (stringify : List Report → String)
    (out : Nat → Option StoreError) (st : AppState) :
    (submitTry cfg stringify out st).1.reports =
      if dataSizeOf stringify st.reports > threshold cfg then [] else st.reports := by
  unfold submitTry
  by_cases h : dataSizeOf stringify st.reports > threshold cfg
  · simp only [h, if_true]
    rw [evictLoop_of_gt _ _ h _ _ (le_refl _)]
    generalize hres : setItem out _ _ = res
    obtain ⟨st2, o⟩ := res
    have hr := setItem_reports out (stringify []) { st with reports := [] }
    rw [hres] at hr
    cases o with
    | some e => simpa using hr
    | none =>
      simp only [setItem_reports, alert_reports]
      simpa using hr
  · simp only [h, if_false, setItem_reports]

/-- The function `handleFormSubmit` on a state with image and coordinate
present: the try block on the collection with the new report in front, then
the catch block or `resetForm`. -/
theorem handleFormSubmit_of_present (cfg : Config) (stringify : List Report → String)
    (env : SubmitEnv) (out : Nat → Option StoreError) (st : AppState)
    (image : String) (loc : Coordinate)
    (hi : st.currentImage = some image) (hne : image ≠ "")
    (hl : st.currentLocation = some loc) :
    handleFormSubmit cfg stringify env out st =
      match submitTry cfg stringify out
          { st with reports := newReport cfg env image loc :: st.reports } with
      | (st2, some e) => submitCatch stringify out e st2
      | (st2, none) => resetForm st2 := by
  unfold handleFormSubmit
  simp only [hi, hl, bne_iff_ne, ne_eq, hne, not_false_eq_true, if_true]

/-- The collection `handleFormSubmit` leaves when the serialized size after the
insertion is within the threshold. -/
theorem handleFormSubmit_reports_of_le (cfg : Config) (stringify : List Report → String)
    (env : SubmitEnv) (out : Nat → Option StoreError) (st : AppState)
    (image : String) (loc : Coordinate)
    (hi : st.currentImage = some image) (hne : image ≠ "")
    (hl : st.currentLocation = some loc)
    (hsize : dataSizeOf stringify (newReport cfg env image loc :: st.reports) ≤ threshold cfg) :
    (handleFormSubmit cfg stringify env out st).reports =
      if out st.writes.length = some StoreError.quotaExceeded ∧ st.reports ≠ [] then
        newReport cfg env image loc :: st.reports.dropLast
      else newReport cfg env image loc :: st.reports := by
  have hgt : ¬ dataSizeOf stringify (newReport cfg env image loc :: st.reports) > threshold cfg :=
    not_lt.mpr hsize
  rw [handleFormSubmit_of_present cfg stringify env out st image loc hi hne hl]
  have hr := submitTry_reports cfg stringify out
    { st with reports := newReport cfg env image loc :: st.reports }
  have ho : (submitTry cfg stringify out
      { st with reports := newReport cfg env image loc :: st.reports }).2 =
      out st.writes.length := by
    unfold submitTry
    simp only [hgt, if_false, setItem_snd]
  simp only [hgt, if_false] at hr
  generalize submitTry cfg stringify out _ = res at hr ho
  obtain ⟨st2, o⟩ := res
  simp only at hr ho
  rw [ho]
  cases hout : out st.writes.length with
  | none => simp [resetForm_reports, hr]
  | some e =>
    simp only [submitCatch_reports, hr, List.length_cons, Option.some.injEq]
    cases hrs : st.reports with
    | nil => simp
    | cons r rs => cases e <;> simp

/-- The collection `handleFormSubmit` leaves when the serialized size after the
insertion is above the threshold: the empty one. -/
theorem handleFormSubmit_reports_of_gt (cfg : Config) (stringify : List Report → String)
    (env : SubmitEnv) (out : Nat → Option StoreError) (st : AppState)
    (image : String) (loc : Coordinate)
    (hi : st.currentImage = some image) (hne : image ≠ "")
    (hl : st.currentLocation = some loc)
    (hsize : dataSizeOf stringify (newReport cfg env image loc :: st.reports) > threshold cfg) :
    (handleFormSubmit cfg stringify env out st).reports = [] := by
  rw [handleFormSubmit_of_present cfg stringify env out st image loc hi hne hl]
  have hr := submitTry_reports cfg stringify out
    { st with reports := newReport cfg env image loc :: st.reports }
  simp only [hsize, if_true] at hr
  generalize submitTry cfg stringify out _ = res at hr
  obtain ⟨st2, o⟩ := res
  simp only at hr
  cases o with
  | none => simp [resetForm_reports, hr]
  | some e => simp [submitCatch_reports, hr]

/-! ## Concrete sizes -/

theorem sampleNew_eq :
    newReport defaultConfig sampleEnv "data:image/jpeg;base64,CCCC" sampleLocation = sampleNew := by
  rfl

theorem newReport_configWithMax (m : ℚ) (env : SubmitEnv) (image : String) (loc : Coordinate) :
    newReport (configWithMax m) env image loc = newReport defaultConfig env image loc := rfl

theorem threshold_defaultConfig : threshold defaultConfig = 18874368 / 5 := by
  norm_num [threshold, defaultConfig, orNumber]

theorem threshold_configWithMax (m : ℚ) : threshold (configWithMax m) = m * (9 / 10) := by
  norm_num [threshold, configWithMax, defaultConfig, orNumber]

set_option maxRecDepth 100000 in
theorem dataSize_one : dataSizeOf stringifyPlain [sampleNew] = 200 := by
  have h : (stringifyPlain [sampleNew]).utf8ByteSize = 200 := by decide
  simp [dataSizeOf, h]

set_option maxRecDepth 100000 in
theorem dataSize_two : dataSizeOf stringifyPlain [sampleNew, sampleOld] = 402 := by
  have h : (stringifyPlain [sampleNew, sampleOld]).utf8ByteSize = 402 := by decide
  simp [dataSizeOf, h]

set_option maxRecDepth 100000 in
theorem dataSize_three :
    dataSizeOf stringifyPlain [sampleNew, sampleOld, sampleOlder] = 608 := by
  have h : (stringifyPlain [sampleNew, sampleOld, sampleOlder]).utf8ByteSize = 608 := by decide
  simp [dataSizeOf, h]

/-! ## Submission -/

/-- C1, as amended.  For a submission with image and coordinate present whose
serialized size after the insertion is at most `maxStorageSize * storageThreshold`,
`handleFormSubmit` leaves the new report at index 0; the length is the previous
length + 1, except that when the write raises quota-exceeded on a non-empty
previous collection the oldest report is dropped and the length is the previous
length. -/
theorem handleFormSubmit_within_threshold (cfg : Config) (stringify : List Report → String)
    (env : SubmitEnv) (out : Nat → Option StoreError) (st : AppState)
    (image : String) (loc : Coordinate)
    (hi : st.currentImage = some image) (hne : image ≠ "")
    (hl : st.currentLocation = some loc)
    (hsize : dataSizeOf stringify (newReport cfg env image loc :: st.reports) ≤ threshold cfg) :
    (handleFormSubmit cfg stringify env out st).reports[0]? =
        some (newReport cfg env image loc) ∧
      (¬ (out st.writes.length = some StoreError.quotaExceeded ∧ st.reports ≠ []) →
        (handleFormSubmit cfg stringify env out st).reports.length = st.reports.length + 1 ∧
        (handleFormSubmit cfg stringify env out st).reports =
          newReport cfg env image loc :: st.reports) ∧
      (out st.writes.length = some StoreError.quotaExceeded ∧ st.reports ≠ [] →
        (handleFormSubmit cfg stringify env out st).reports.length = st.reports.length ∧
        (handleFormSubmit cfg stringify env out st).reports =
          newReport cfg env image loc :: st.reports.dropLast) := by
  have h := handleFormSubmit_reports_of_le cfg stringify env out st image loc hi hne hl hsize
  by_cases hq : out st.writes.length = some StoreError.quotaExceeded ∧ st.reports ≠ []
  · rw [if_pos hq] at h
    refine ⟨by rw [h]; simp, fun hn => absurd hq hn, fun _ => ⟨?_, h⟩⟩
    rw [h, List.length_cons, List.length_dropLast]
    have : 0 < st.reports.length := List.length_pos.mpr hq.2
    omega
  · rw [if_neg hq] at h
    exact ⟨by rw [h]; simp, fun _ => ⟨by rw [h]; rfl, h⟩, fun hp => absurd hp hq⟩

/-- Witness of `handleFormSubmit_within_threshold`: one stored report, the
default configuration, a store that accepts the write. -/
theorem handleFormSubmit_within_threshold_witness :
    (handleFormSubmit defaultConfig stringifyPlain sampleEnv storeOk
        (pendingState [sampleOld])).reports[0]? = some sampleNew ∧
      (handleFormSubmit defaultConfig stringifyPlain sampleEnv storeOk
        (pendingState [sampleOld])).reports.length = 2 := by
  have hsize : dataSizeOf stringifyPlain
      (newReport defaultConfig sampleEnv "data:image/jpeg;base64,CCCC" sampleLocation ::
        (pendingState [sampleOld]).reports) ≤ threshold defaultConfig := by
    rw [sampleNew_eq, threshold_defaultConfig]
    show dataSizeOf stringifyPlain [sampleNew, sampleOld] ≤ _
    rw [dataSize_two]
    norm_num
  have h := handleFormSubmit_within_threshold defaultConfig stringifyPlain sampleEnv storeOk
    (pendingState [sampleOld]) "data:image/jpeg;base64,CCCC" sampleLocation rfl (by decide) rfl
    hsize
  rw [sampleNew_eq] at h
  exact ⟨h.1, (h.2.1 (by simp [storeOk])).1⟩

/-- C1, counterexample.  One stored report, image and coordinate present, the
default configuration, serialized size 402 bytes: when the write raises
quota-exceeded, `handleFormSubmit` drops the stored report and leaves a
collection of length 1, not 1 + 1. -/
theorem handleFormSubmit_length_counterexample :
    (handleFormSubmit defaultConfig stringifyPlain sampleEnv storeQuotaOnce
        (pendingState [sampleOld])).reports = [sampleNew] ∧
      ¬ ((handleFormSubmit defaultConfig stringifyPlain sampleEnv storeQuotaOnce
        (pendingState [sampleOld])).reports.length =
          (pendingState [sampleOld]).reports.length + 1) := by
  have hsize : dataSizeOf stringifyPlain
      (newReport defaultConfig sampleEnv "data:image/jpeg;base64,CCCC" sampleLocation ::
        (pendingState [sampleOld]).reports) ≤ threshold defaultConfig := by
    rw [sampleNew_eq, threshold_defaultConfig]
    show dataSizeOf stringifyPlain [sampleNew, sampleOld] ≤ _
    rw [dataSize_two]
    norm_num
  have h := handleFormSubmit_reports_of_le defaultConfig stringifyPlain sampleEnv storeQuotaOnce
    (pendingState [sampleOld]) "data:image/jpeg;base64,CCCC" sampleLocation rfl (by decide) rfl
    hsize
  rw [sampleNew_eq] at h
  have h2 : (handleFormSubmit defaultConfig stringifyPlain sampleEnv storeQuotaOnce
      (pendingState [sampleOld])).reports = [sampleNew] := by
    rw [h]
    simp [pendingState, storeQuotaOnce]
  refine ⟨h2, ?_⟩
  rw [h2]
  simp [pendingState]

/-- C2, the code at the failing input.  One stored report, `maxStorageSize` 256
(threshold 230.4): the collection with the new report in front serializes to
402 bytes, the new report alone to 200 bytes, and `handleFormSubmit` leaves the
empty collection: the new report is not in it. -/
theorem handleFormSubmit_evicts_new_report :
    dataSizeOf stringifyPlain [sampleNew, sampleOld] > threshold (configWithMax 256) ∧
      dataSizeOf stringifyPlain [sampleNew] ≤ threshold (configWithMax 256) ∧
      (handleFormSubmit (configWithMax 256) stringifyPlain sampleEnv storeOk
        (pendingState [sampleOld])).reports = [] ∧
      sampleNew ∉ (handleFormSubmit (configWithMax 256) stringifyPlain sampleEnv storeOk
        (pendingState [sampleOld])).reports := by
  have hgt : dataSizeOf stringifyPlain [sampleNew, sampleOld] > threshold (configWithMax 256) := by
    rw [dataSize_two, threshold_configWithMax]; norm_num
  have hle : dataSizeOf stringifyPlain [sampleNew] ≤ threshold (configWithMax 256) := by
    rw [dataSize_one, threshold_configWithMax]; norm_num
  have h := handleFormSubmit_reports_of_gt (configWithMax 256) stringifyPlain sampleEnv storeOk
    (pendingState [sampleOld]) "data:image/jpeg;base64,CCCC" sampleLocation rfl (by decide) rfl
    (by rw [newReport_configWithMax, sampleNew_eq]; exact hgt)
  exact ⟨hgt, hle, h, by rw [h]; simp⟩

/-- C3, the code at the failing input.  Two stored reports, `maxStorageSize` 512
(threshold 460.8): the three reports serialize to 608 bytes, and without the
oldest one to 402 bytes, within the threshold; the loop of script.js:1007-1009
nevertheless removes all three. -/
theorem handleFormSubmit_evicts_past_threshold :
    dataSizeOf stringifyPlain [sampleNew, sampleOld, sampleOlder] >
        threshold (configWithMax 512) ∧
      dataSizeOf stringifyPlain [sampleNew, sampleOld] ≤ threshold (configWithMax 512) ∧
      evictLoop (dataSizeOf stringifyPlain [sampleNew, sampleOld, sampleOlder])
        (threshold (configWithMax 512)) 3 [sampleNew, sampleOld, sampleOlder] = [] ∧
      (handleFormSubmit (configWithMax 512) stringifyPlain sampleEnv storeOk
        (pendingState [sampleOld, sampleOlder])).reports = [] := by
  have hgt : dataSizeOf stringifyPlain [sampleNew, sampleOld, sampleOlder] >
      threshold (configWithMax 512) := by
    rw [dataSize_three, threshold_configWithMax]; norm_num
  have hle : dataSizeOf stringifyPlain [sampleNew, sampleOld] ≤
      threshold (configWithMax 512) := by
    rw [dataSize_two, threshold_configWithMax]; norm_num
  have h := handleFormSubmit_reports_of_gt (configWithMax 512) stringifyPlain sampleEnv storeOk
    (pendingState [sampleOld, sampleOlder]) "data:image/jpeg;base64,CCCC" sampleLocation rfl
    (by decide) rfl (by rw [newReport_configWithMax, sampleNew_eq]; exact hgt)
  exact ⟨hgt, hle, evictLoop_of_gt _ _ hgt 3 _ (le_refl _), h⟩

/-- C4.  When the current image is absent (or empty) or the current coordinate
is absent, `handleFormSubmit` only raises the alert: the collection, the
persisted entry and the list of writes are unchanged; `checkFormValidity` has
the submit button disabled in such a state. -/
theorem handleFormSubmit_rejects_incomplete (cfg : Config) (stringify : List Report → String)
    (env : SubmitEnv) (out : Nat → Option StoreError) (st : AppState)
    (h : truthyString st.currentImage = false ∨ st.currentLocation = none) :
    handleFormSubmit cfg stringify env out st = alert Alert.locationRequired st ∧
      (handleFormSubmit cfg stringify env out st).reports = st.reports ∧
      (handleFormSubmit cfg stringify env out st).stored = st.stored ∧
      (handleFormSubmit cfg stringify env out st).writes = st.writes ∧
      checkFormValidity st = true := by
  have key : handleFormSubmit cfg stringify env out st = alert Alert.locationRequired st := by
    unfold handleFormSubmit
    cases hi : st.currentImage with
    | none => rfl
    | some image =>
      cases hl : st.currentLocation with
      | none => rfl
      | some loc =>
        rcases h with h | h
        · rw [hi] at h
          simp only [truthyString] at h
          simp only [h]
          rfl
        · rw [hl] at h
          cases h
  refine ⟨key, by rw [key]; rfl, by rw [key]; rfl, by rw [key]; rfl, ?_⟩
  unfold checkFormValidity
  rcases h with h | h
  · simp [h]
  · simp [h]

/-- Witness of `handleFormSubmit_rejects_incomplete`: a coordinate but no image. -/
theorem handleFormSubmit_rejects_incomplete_witness :
    (handleFormSubmit defaultConfig stringifyPlain sampleEnv storeOk
        { pendingState [sampleOld] with currentImage := none }).reports = [sampleOld] ∧
      (handleFormSubmit defaultConfig stringifyPlain sampleEnv storeOk
        { pendingState [sampleOld] with currentImage := none }).stored =
          some (stringifyPlain [sampleOld]) :=
  ⟨(handleFormSubmit_rejects_incomplete defaultConfig stringifyPlain sampleEnv storeOk
      { pendingState [sampleOld] with currentImage := none } (Or.inl rfl)).2.1,
    (handleFormSubmit_rejects_incomplete defaultConfig stringifyPlain sampleEnv storeOk
      { pendingState [sampleOld] with currentImage := none } (Or.inl rfl)).2.2.1⟩


/-! ## Status update -/

theorem setStatusOfFirst_length (reportId newStatus : String) :
    ∀ reports : List Report,
      (setStatusOfFirst reportId newStatus reports).length = reports.length
  | [] => rfl
  | r :: rs => by
    unfold setStatusOfFirst
    split
    · rfl
    · simp [setStatusOfFirst_length reportId newStatus rs]

/-- What `setStatusOfFirst` does, position by position, when `find` returns
`r`. -/
theorem setStatusOfFirst_spec (reportId newStatus : String) :
    ∀ (reports : List Report) (r : Report),
      reports.find? (fun q => q.id == reportId) = some r →
      ∃ i, i < reports.length ∧ reports[i]? = some r ∧
        (∀ j, j < i → ∀ q, reports[j]? = some q → q.id ≠ reportId) ∧
        (setStatusOfFirst reportId newStatus reports)[i]? =
          some { r with status := newStatus } ∧
        ∀ j, j ≠ i → (setStatusOfFirst reportId newStatus reports)[j]? = reports[j]?
  | [], r, h => by simp at h
  | p :: rs, r, h => by
    by_cases hp : (p.id == reportId) = true
    · simp only [List.find?_cons, hp] at h
      cases h
      refine ⟨0, by simp, by simp, fun j hj => absurd hj (Nat.not_lt_zero j), ?_, ?_⟩
      · simp [setStatusOfFirst, hp]
      · intro j hj
        obtain ⟨k, rfl⟩ := Nat.exists_eq_succ_of_ne_zero hj
        simp [setStatusOfFirst, hp]
    · simp only [List.find?_cons, hp] at h
      obtain ⟨i, hi, hget, hfirst, hset, hrest⟩ := setStatusOfFirst_spec reportId newStatus rs r h
      refine ⟨i + 1, by simpa using hi, by simpa using hget, ?_, ?_, ?_⟩
      · intro j hj q hq
        cases j with
        | zero =>
          simp at hq
          subst hq
          simpa using hp
        | succ k => exact hfirst k (by omega) q (by simpa using hq)
      · simpa [setStatusOfFirst, hp] using hset
      · intro j hj
        cases j with
        | zero => simp [setStatusOfFirst, hp]
        | succ k =>
          have := hrest k (by omega)
          simpa [setStatusOfFirst, hp] using this

/-- C5.  When `find` returns a report whose status is already `newStatus`,
`updateStatus` returns at once: the whole state (collection, persisted entry,
list of writes) is the one before the call, and nothing is thrown. -/
theorem updateStatus_same_status (stringify : List Report → String)
    (out : Nat → Option StoreError) (reportId newStatus : String) (st : AppState) (r : Report)
    (hfind : st.reports.find? (fun q => q.id == reportId) = some r)
    (hsame : r.status = newStatus) :
    updateStatus stringify out reportId newStatus st = (st, none) := by
  unfold updateStatus
  rw [hfind]
  simp [hsame]

/-- Witness of `updateStatus_same_status`: the stored report is set to the
status it has. -/
theorem updateStatus_same_status_witness :
    updateStatus stringifyPlain storeOk "1700000000000" "reported" (pendingState [sampleOld]) =
      (pendingState [sampleOld], none) :=
  updateStatus_same_status stringifyPlain storeOk "1700000000000" "reported"
    (pendingState [sampleOld]) sampleOld rfl rfl

/-- C6.  When `find` returns a report `r` whose status differs from
`newStatus`, the collection after `updateStatus` has the same length; at the
position of the first report with that id it holds `r` with only the status
replaced; at every other position it holds what it held before.  This is so
whatever the store does with the write. -/
theorem updateStatus_changes_only_status (stringify : List Report → String)
    (out : Nat → Option StoreError) (reportId newStatus : String) (st : AppState) (r : Report)
    (hfind : st.reports.find? (fun q => q.id == reportId) = some r)
    (hdiff : r.status ≠ newStatus) :
    (updateStatus stringify out reportId newStatus st).1.reports.length = st.reports.length ∧
      ∃ i, i < st.reports.length ∧ st.reports[i]? = some r ∧
        (∀ j, j < i → ∀ q, st.reports[j]? = some q → q.id ≠ reportId) ∧
        (updateStatus stringify out reportId newStatus st).1.reports[i]? =
          some { r with status := newStatus } ∧
        ∀ j, j ≠ i →
          (updateStatus stringify out reportId newStatus st).1.reports[j]? = st.reports[j]? := by
  have key : (updateStatus stringify out reportId newStatus st).1.reports =
      setStatusOfFirst reportId newStatus st.reports := by
    unfold updateStatus
    rw [hfind]
    simp only [hdiff, if_false, setItem_reports]
  rw [key]
  exact ⟨setStatusOfFirst_length reportId newStatus st.reports,
    setStatusOfFirst_spec reportId newStatus st.reports r hfind⟩

/-- Witness of `updateStatus_changes_only_status`: the second of two stored
reports goes from `resolved` to `in-progress`. -/
theorem updateStatus_changes_only_status_witness :
    (updateStatus stringifyPlain storeOk "1600000000000" "in-progress"
        (pendingState [sampleOld, sampleOlder])).1.reports.length = 2 ∧
      ∃ i, i < 2 ∧ [sampleOld, sampleOlder][i]? = some sampleOlder ∧
        (∀ j, j < i → ∀ q, [sampleOld, sampleOlder][j]? = some q → q.id ≠ "1600000000000") ∧
        (updateStatus stringifyPlain storeOk "1600000000000" "in-progress"
          (pendingState [sampleOld, sampleOlder])).1.reports[i]? =
            some { sampleOlder with status := "in-progress" } ∧
        ∀ j, j ≠ i →
          (updateStatus stringifyPlain storeOk "1600000000000" "in-progress"
            (pendingState [sampleOld, sampleOlder])).1.reports[j]? =
              [sampleOld, sampleOlder][j]? :=
  updateStatus_changes_only_status stringifyPlain storeOk "1600000000000" "in-progress"
    (pendingState [sampleOld, sampleOlder]) sampleOlder rfl (by decide)


/-! ## Deletion -/

/-- The state `outOfStepState` is reached by `handleFormSubmit`: one stored
report, the write and the retry both raise quota-exceeded. -/
theorem outOfStepState_reached :
    handleFormSubmit defaultConfig stringifyPlain sampleEnv storeQuotaTwice
      (pendingState [sampleOld]) = outOfStepState := by
  have hgt : ¬ dataSizeOf stringifyPlain [sampleNew, sampleOld] > threshold defaultConfig := by
    rw [dataSize_two, threshold_defaultConfig]; norm_num
  rw [handleFormSubmit_of_present defaultConfig stringifyPlain sampleEnv storeQuotaTwice
    (pendingState [sampleOld]) "data:image/jpeg;base64,CCCC" sampleLocation rfl (by decide) rfl,
    sampleNew_eq]
  unfold submitTry
  simp only [pendingState, hgt, if_false]
  rfl

/-- A filter that no element fails returns the list. -/
theorem filter_absent_id (reportId : String) (reports : List Report)
    (habs : ∀ r ∈ reports, r.id ≠ reportId) :
    reports.filter (fun r => r.id != reportId) = reports := by
  rw [List.filter_eq_self]
  intro r hr
  simpa using habs r hr

/-- C7, as amended.  For an id that no report carries, `deleteReport` leaves
the collection unchanged; when confirmed it writes the serialization of that
unchanged collection, so the persisted entry keeps its value whenever it held
that serialization before the call (and whenever the call is not confirmed). -/
theorem deleteReport_absent_id (stringify : List Report → String)
    (out : Nat → Option StoreError) (confirmed : Bool) (reportId : String) (st : AppState)
    (habs : ∀ r ∈ st.reports, r.id ≠ reportId) :
    (deleteReport stringify out confirmed reportId st).1.reports = st.reports ∧
      (confirmed = true →
        (deleteReport stringify out confirmed reportId st).1.writes =
          st.writes ++ [stringify st.reports]) ∧
      (confirmed = false → deleteReport stringify out confirmed reportId st = (st, none)) ∧
      (st.stored = some (stringify st.reports) →
        (deleteReport stringify out confirmed reportId st).1.stored = st.stored) := by
  have hf := filter_absent_id reportId st.reports habs
  cases confirmed with
  | false => simp [deleteReport]
  | true =>
    refine ⟨?_, fun _ => ?_, fun h => (by cases h), fun h => ?_⟩
    · simp only [deleteReport, if_true, setItem_reports, hf]
    · simp only [deleteReport, if_true, setItem_writes, hf]
    · simp only [deleteReport, if_true, setItem_stored, hf]
      split
      · exact h.symm
      · rfl

/-- Witness of `deleteReport_absent_id`: an id that the stored report does not
carry, the store in step with the collection. -/
theorem deleteReport_absent_id_witness :
    (deleteReport stringifyPlain storeOk true "42" (pendingState [sampleOld])).1.reports =
        [sampleOld] ∧
      (deleteReport stringifyPlain storeOk true "42" (pendingState [sampleOld])).1.stored =
        some (stringifyPlain [sampleOld]) := by
  have h := deleteReport_absent_id stringifyPlain storeOk true "42" (pendingState [sampleOld])
    (by intro r hr; simp only [pendingState, List.mem_singleton] at hr; subst hr; decide)
  exact ⟨h.1, h.2.2.2 rfl⟩

set_option maxRecDepth 100000 in
/-- C7, counterexample.  In `outOfStepState` no report carries the id
`1700000000000` (that report was dropped by the failed submission), the store
holds the old collection, and a confirmed `deleteReport` of that id replaces the
persisted value. -/
theorem deleteReport_absent_id_counterexample :
    (∀ r ∈ outOfStepState.reports, r.id ≠ "1700000000000") ∧
      (deleteReport stringifyPlain storeQuotaTwice true "1700000000000"
        outOfStepState).1.reports = outOfStepState.reports ∧
      ¬ ((deleteReport stringifyPlain storeQuotaTwice true "1700000000000"
        outOfStepState).1.stored = outOfStepState.stored) := by
  refine ⟨?_, ?_, ?_⟩
  · intro r hr
    simp only [outOfStepState, List.mem_singleton] at hr
    subst hr
    decide
  · rfl
  · decide


/-- C8.  A confirmed `deleteReport(id)` leaves exactly the reports whose id
differs from `id`, in their original relative order (a sub-sequence of the
collection that keeps every such report as often as it occurred), issues one
`setItem` whose payload is the serialization of that collection, and the
persisted entry holds that serialization when the store accepts the write. -/
theorem deleteReport_confirmed (stringify : List Report → String)
    (out : Nat → Option StoreError) (reportId : String) (st : AppState) :
    (deleteReport stringify out true reportId st).1.reports.Sublist st.reports ∧
      (∀ r, r ∈ (deleteReport stringify out true reportId st).1.reports ↔
        r ∈ st.reports ∧ r.id ≠ reportId) ∧
      (∀ r, r.id ≠ reportId →
        (deleteReport stringify out true reportId st).1.reports.count r = st.reports.count r) ∧
      (deleteReport stringify out true reportId st).1.writes =
        st.writes ++ [stringify (deleteReport stringify out true reportId st).1.reports] ∧
      (deleteReport stringify out true reportId st).1.stored =
        (if out st.writes.length = none then
          some (stringify (deleteReport stringify out true reportId st).1.reports)
        else st.stored) := by
  have key : (deleteReport stringify out true reportId st).1.reports =
      st.reports.filter (fun r => r.id != reportId) := by
    simp only [deleteReport, if_true, setItem_reports]
  rw [key]
  refine ⟨List.filter_sublist _, ?_, ?_, ?_, ?_⟩
  · intro r
    simp [List.mem_filter]
  · intro r hr
    rw [List.count_filter]
    simpa using hr
  · simp only [deleteReport, if_true, setItem_writes]
  · simp only [deleteReport, if_true, setItem_stored]

/-! ## Rendering filter -/

/-- C9.  For a filter `s` other than `all`, `renderReports` shows exactly the
reports whose status is `s`, in their original relative order: a sub-sequence
of the collection that holds a report if and only if the collection holds it
with status `s`, as often as the collection does.  For the filter `all` it
shows the collection itself.  The function computes a new list; the collection
is its argument and is not changed. -/
theorem filteredReports_spec (s : String) (reports : List Report) (hs : s ≠ "all") :
    filteredReports s reports = reports.filter (fun r => r.status == s) ∧
      (filteredReports s reports).Sublist reports ∧
      (∀ r, r ∈ filteredReports s reports ↔ r ∈ reports ∧ r.status = s) ∧
      (∀ r, r.status = s → (filteredReports s reports).count r = reports.count r) ∧
      filteredReports "all" reports = reports := by
  have key : filteredReports s reports = reports.filter (fun r => r.status == s) := by
    simp [filteredReports, hs]
  rw [key]
  refine ⟨rfl, List.filter_sublist _, ?_, ?_, ?_⟩
  · intro r
    simp [List.mem_filter]
  · intro r hr
    rw [List.count_filter]
    simpa using hr
  · simp [filteredReports]

/-- Witness of `filteredReports_spec`: the filter `resolved` on two stored
reports keeps the resolved one. -/
theorem filteredReports_spec_witness :
    filteredReports "resolved" [sampleOld, sampleOlder] = [sampleOlder] ∧
      filteredReports "all" [sampleOld, sampleOlder] = [sampleOld, sampleOlder] :=
  ⟨(filteredReports_spec "resolved" [sampleOld, sampleOlder] (by decide)).1.trans rfl,
    (filteredReports_spec "resolved" [sampleOld, sampleOlder] (by decide)).2.2.2.2⟩

/-! ## Distance -/

/-- With `Math.sin(0) = 0`, `Math.sqrt(0) = 0` and `Math.atan2(0, Math.sqrt(1)) = 0`,
the distance from a point to itself is zero, over every number field. -/
theorem calculateDistance_self_of_laws {F : Type} [Field F] (M : MathOps F)
    (hsin : M.sin 0 = 0) (hsqrt : M.sqrt 0 = 0) (hatan : M.atan2 0 (M.sqrt 1) = 0)
    (lat lon : F) : calculateDistance M lat lon lat lon = 0 := by
  simp [calculateDistance, hsin, hsqrt, hatan]

/-- C10.  Over the real numbers, for every latitude in [-90, 90] and longitude
in [-180, 180], `calculateDistance(lat, lon, lat, lon) = 0`. -/
theorem calculateDistance_self (lat lon : ℝ) (_hlat : -90 ≤ lat ∧ lat ≤ 90)
    (_hlon : -180 ≤ lon ∧ lon ≤ 180) :
    calculateDistance realMath lat lon lat lon = 0 := by
  apply calculateDistance_self_of_laws
  · exact Real.sin_zero
  · exact Real.sqrt_zero
  · show Complex.arg ⟨Real.sqrt 1, 0⟩ = 0
    rw [Real.sqrt_one]
    exact Complex.arg_one

/-- Witness of `calculateDistance_self`: New Delhi, 28.6139 N 77.2090 E. -/
theorem calculateDistance_self_witness :
    calculateDistance realMath 28.6139 77.2090 28.6139 77.2090 = 0 :=
  calculateDistance_self 28.6139 77.2090 (by norm_num) (by norm_num)

/-- The function `calculateDistance` in terms of its haversine term. -/
theorem calculateDistance_eq {F : Type} [Field F] (M : MathOps F) (lat1 lon1 lat2 lon2 : F) :
    calculateDistance M lat1 lon1 lat2 lon2 =
      6371 * (2 * M.atan2 (M.sqrt (haversineTerm M lat1 lon1 lat2 lon2))
        (M.sqrt (1 - haversineTerm M lat1 lon1 lat2 lon2))) := rfl

/-- Over the reals the haversine term is symmetric in the two points. -/
theorem haversineTerm_symm (lat1 lon1 lat2 lon2 : ℝ) :
    haversineTerm realMath lat1 lon1 lat2 lon2 = haversineTerm realMath lat2 lon2 lat1 lon1 := by
  have h1 : Real.sin ((lat2 - lat1) * Real.pi / 180 / 2) =
      - Real.sin ((lat1 - lat2) * Real.pi / 180 / 2) := by
    rw [← Real.sin_neg]; congr 1; ring
  have h2 : Real.sin ((lon2 - lon1) * Real.pi / 180 / 2) =
      - Real.sin ((lon1 - lon2) * Real.pi / 180 / 2) := by
    rw [← Real.sin_neg]; congr 1; ring
  simp only [haversineTerm, realMath, h1, h2]
  ring

/-- C11.  Over the real numbers, for all coordinates with latitudes in
[-90, 90] and longitudes in [-180, 180],
`calculateDistance(a.lat, a.lon, b.lat, b.lon) = calculateDistance(b.lat, b.lon, a.lat, a.lon)`. -/
theorem calculateDistance_symm (lat1 lon1 lat2 lon2 : ℝ)
    (_h1 : (-90 ≤ lat1 ∧ lat1 ≤ 90) ∧ (-180 ≤ lon1 ∧ lon1 ≤ 180))
    (_h2 : (-90 ≤ lat2 ∧ lat2 ≤ 90) ∧ (-180 ≤ lon2 ∧ lon2 ≤ 180)) :
    calculateDistance realMath lat1 lon1 lat2 lon2 =
      calculateDistance realMath lat2 lon2 lat1 lon1 := by
  rw [calculateDistance_eq, calculateDistance_eq, haversineTerm_symm]

/-- Witness of `calculateDistance_symm`: New Delhi and Mumbai. -/
theorem calculateDistance_symm_witness :
    calculateDistance realMath 28.6139 77.2090 19.0760 72.8777 =
      calculateDistance realMath 19.0760 72.8777 28.6139 77.2090 :=
  calculateDistance_symm 28.6139 77.2090 19.0760 72.8777
    (by norm_num) (by norm_num)

/-- The cosine of a latitude in [-90, 90] degrees is not negative. -/
theorem cos_degrees_nonneg (lat : ℝ) (h : -90 ≤ lat ∧ lat ≤ 90) :
    0 ≤ Real.cos (lat * Real.pi / 180) := by
  have hpi := Real.pi_pos
  apply Real.cos_nonneg_of_neg_pi_div_two_le_of_le
  · nlinarith [h.1]
  · nlinarith [h.2]

/-- The haversine term of two valid coordinates is not negative. -/
theorem haversineTerm_nonneg (lat1 lon1 lat2 lon2 : ℝ)
    (h1 : -90 ≤ lat1 ∧ lat1 ≤ 90) (h2 : -90 ≤ lat2 ∧ lat2 ≤ 90) :
    0 ≤ haversineTerm realMath lat1 lon1 lat2 lon2 := by
  have c1 := cos_degrees_nonneg lat1 h1
  have c2 := cos_degrees_nonneg lat2 h2
  simp only [haversineTerm, realMath]
  have s1 := mul_self_nonneg (Real.sin ((lat2 - lat1) * Real.pi / 180 / 2))
  have s2 := mul_self_nonneg (Real.sin ((lon2 - lon1) * Real.pi / 180 / 2))
  have := mul_nonneg (mul_nonneg c1 c2) s2
  nlinarith

/-- The haversine term of two valid coordinates is at most 1. -/
theorem haversineTerm_le_one (lat1 lon1 lat2 lon2 : ℝ)
    (h1 : -90 ≤ lat1 ∧ lat1 ≤ 90) (h2 : -90 ≤ lat2 ∧ lat2 ≤ 90) :
    haversineTerm realMath lat1 lon1 lat2 lon2 ≤ 1 := by
  have c1 := cos_degrees_nonneg lat1 h1
  have c2 := cos_degrees_nonneg lat2 h2
  simp only [haversineTerm, realMath]
  set p := lat1 * Real.pi / 180 with hp
  set q := lat2 * Real.pi / 180 with hq
  set s := Real.sin ((lon2 - lon1) * Real.pi / 180 / 2) with hs
  have hd : (lat2 - lat1) * Real.pi / 180 / 2 = (q - p) / 2 := by rw [hp, hq]; ring
  rw [hd]
  have hs1 : s * s ≤ 1 := by
    have := Real.sin_sq_le_one ((lon2 - lon1) * Real.pi / 180 / 2)
    rw [← hs] at this
    nlinarith
  have hhalf : Real.sin ((q - p) / 2) * Real.sin ((q - p) / 2) = 1 / 2 - Real.cos (q - p) / 2 := by
    have := Real.sin_sq_eq_half_sub ((q - p) / 2)
    rw [show 2 * ((q - p) / 2) = q - p by ring] at this
    rw [← this]; ring
  have hsub : Real.cos (q - p) = Real.cos q * Real.cos p + Real.sin q * Real.sin p :=
    Real.cos_sub q p
  have hadd : Real.cos (q + p) = Real.cos q * Real.cos p - Real.sin q * Real.sin p :=
    Real.cos_add q p
  have hle : Real.cos (q + p) ≤ 1 := Real.cos_le_one _
  have hcc : 0 ≤ Real.cos p * Real.cos q := mul_nonneg c1 c2
  have hterm : Real.cos p * Real.cos q * s * s ≤ Real.cos p * Real.cos q := by
    have := mul_le_mul_of_nonneg_left hs1 hcc
    nlinarith
  rw [hhalf]
  nlinarith

/-- For non-negative arguments `Math.atan2` is between 0 and pi / 2. -/
theorem atan2_real_nonneg_le (y x : ℝ) (hy : 0 ≤ y) (hx : 0 ≤ x) :
    0 ≤ realMath.atan2 y x ∧ realMath.atan2 y x ≤ Real.pi / 2 := by
  show 0 ≤ Complex.arg ⟨x, y⟩ ∧ Complex.arg ⟨x, y⟩ ≤ Real.pi / 2
  constructor
  · rw [Complex.arg_nonneg_iff]; exact hy
  · rw [Complex.arg_le_pi_div_two_iff]; exact Or.inl hx

/-- In exact arithmetic, over the real numbers, for all coordinates with
latitudes in [-90, 90] and longitudes in [-180, 180]: the haversine term `a`
lies in [0, 1] and the distance is at least 0 and at most pi * 6371.  This is a
fact about the formula, not about the doubles of the script: there the term can
round above 1 at antipodal points, where its exact value is 1
(`haversineTerm_antipodal`), and the function then returns `NaN`. -/
theorem calculateDistance_bounds (lat1 lon1 lat2 lon2 : ℝ)
    (h1 : (-90 ≤ lat1 ∧ lat1 ≤ 90) ∧ (-180 ≤ lon1 ∧ lon1 ≤ 180))
    (h2 : (-90 ≤ lat2 ∧ lat2 ≤ 90) ∧ (-180 ≤ lon2 ∧ lon2 ≤ 180)) :
    (0 ≤ haversineTerm realMath lat1 lon1 lat2 lon2 ∧
      haversineTerm realMath lat1 lon1 lat2 lon2 ≤ 1) ∧
    0 ≤ 1 - haversineTerm realMath lat1 lon1 lat2 lon2 ∧
    0 ≤ calculateDistance realMath lat1 lon1 lat2 lon2 ∧
    calculateDistance realMath lat1 lon1 lat2 lon2 ≤ Real.pi * 6371 := by
  have ha0 := haversineTerm_nonneg lat1 lon1 lat2 lon2 h1.1 h2.1
  have ha1 := haversineTerm_le_one lat1 lon1 lat2 lon2 h1.1 h2.1
  have hat := atan2_real_nonneg_le
    (Real.sqrt (haversineTerm realMath lat1 lon1 lat2 lon2))
    (Real.sqrt (1 - haversineTerm realMath lat1 lon1 lat2 lon2))
    (Real.sqrt_nonneg _) (Real.sqrt_nonneg _)
  refine ⟨⟨ha0, ha1⟩, by linarith, ?_, ?_⟩
  · rw [calculateDistance_eq]
    have := hat.1
    show 0 ≤ 6371 * (2 * realMath.atan2 (Real.sqrt _) (Real.sqrt _))
    positivity
  · rw [calculateDistance_eq]
    show 6371 * (2 * realMath.atan2 (Real.sqrt _) (Real.sqrt _)) ≤ _
    linarith [hat.2]


/-- The bounds of `calculateDistance_bounds` at New Delhi and Mumbai. -/
theorem calculateDistance_bounds_witness :
    0 ≤ calculateDistance realMath 28.6139 77.2090 19.0760 72.8777 ∧
      calculateDistance realMath 28.6139 77.2090 19.0760 72.8777 ≤ Real.pi * 6371 :=
  (calculateDistance_bounds 28.6139 77.2090 19.0760 72.8777
    (by norm_num) (by norm_num)).2.2

/-- Over the real numbers the haversine term of a point on the meridian 0 and
its antipode is exactly 1, the upper end of the domain of the two square
roots. -/
theorem haversineTerm_antipodal (lat : ℝ) :
    haversineTerm realMath lat 0 (-lat) 180 = 1 := by
  have e1 : (-lat - lat) * Real.pi / 180 / 2 = -(lat * Real.pi / 180) := by ring
  have e2 : ((180 : ℝ) - 0) * Real.pi / 180 / 2 = Real.pi / 2 := by ring
  have e3 : -lat * Real.pi / 180 = -(lat * Real.pi / 180) := by ring
  simp only [haversineTerm, realMath, e1, e2, e3, Real.sin_neg, Real.cos_neg, Real.sin_pi_div_two]
  have := Real.sin_sq_add_cos_sq (lat * Real.pi / 180)
  nlinarith

/-! ## The Delhi-Mumbai example -/

/-- Bounds on the sine of a small positive angle given between rationals. -/
theorem sin_between (x lo hi : ℝ) (hlo : lo ≤ x) (hhi : x ≤ hi) (h0 : 0 < lo) (h1 : hi ≤ 1) :
    lo - hi ^ 3 / 4 ≤ Real.sin x ∧ Real.sin x ≤ hi := by
  have hx0 : 0 < x := lt_of_lt_of_le h0 hlo
  have h3 : x ^ 3 ≤ hi ^ 3 := pow_le_pow_left₀ hx0.le hhi 3
  have hs := Real.sin_gt_sub_cube hx0 (le_trans hhi h1)
  have hs' := Real.sin_lt hx0
  constructor <;> linarith

/-- Bounds on the cosine of an angle of absolute value at most 1 given between
rationals. -/
theorem cos_between (x lo hi : ℝ) (hlo : lo ≤ x) (hhi : x ≤ hi) (h0 : 0 ≤ lo) (h1 : hi ≤ 1) :
    1 - hi ^ 2 / 2 ≤ Real.cos x ∧ Real.cos x ≤ 1 - lo ^ 2 / 2 + hi ^ 4 * (5 / 96) := by
  have hx0 : 0 ≤ x := le_trans h0 hlo
  have habs : |x| ≤ 1 := by rw [abs_of_nonneg hx0]; linarith
  have hb := Real.cos_bound habs
  rw [abs_of_nonneg hx0] at hb
  have hb2 := (abs_le.mp hb).2
  have h2 : x ^ 2 ≤ hi ^ 2 := pow_le_pow_left₀ hx0 hhi 2
  have h2' : lo ^ 2 ≤ x ^ 2 := pow_le_pow_left₀ h0 hlo 2
  have h4 : x ^ 4 ≤ hi ^ 4 := pow_le_pow_left₀ hx0 hhi 4
  have hl := Real.one_sub_sq_div_two_le_cos (x := x)
  constructor <;> nlinarith

/-- The haversine term from bounds on its two sines and two cosines. -/
theorem term_between (su sv c1 c2 : ℝ)
    (su_lo : 0.08308 ≤ su) (su_hi : su ≤ 0.083235)
    (sv_lo : 0.03778 ≤ sv) (sv_hi : sv ≤ 0.037798)
    (c1_lo : 0.8752 ≤ c1) (c1_hi : c1 ≤ 0.8786)
    (c2_lo : 0.9445 ≤ c2) (c2_hi : c2 ≤ 0.9453) :
    0.00808 ≤ su * su + c1 * c2 * sv * sv ∧ su * su + c1 * c2 * sv * sv ≤ 0.00812 := by
  have su0 : (0 : ℝ) ≤ su := le_trans (by norm_num) su_lo
  have sv0 : (0 : ℝ) ≤ sv := le_trans (by norm_num) sv_lo
  have c10 : (0 : ℝ) ≤ c1 := le_trans (by norm_num) c1_lo
  have c20 : (0 : ℝ) ≤ c2 := le_trans (by norm_num) c2_lo
  have A_lo : (0.08308 : ℝ) * 0.08308 ≤ su * su :=
    mul_le_mul su_lo su_lo (by norm_num) su0
  have A_hi : su * su ≤ (0.083235 : ℝ) * 0.083235 :=
    mul_le_mul su_hi su_hi su0 (by norm_num)
  have B_lo : (0.03778 : ℝ) * 0.03778 ≤ sv * sv :=
    mul_le_mul sv_lo sv_lo (by norm_num) sv0
  have B_hi : sv * sv ≤ (0.037798 : ℝ) * 0.037798 :=
    mul_le_mul sv_hi sv_hi sv0 (by norm_num)
  have C_lo : (0.8752 : ℝ) * 0.9445 ≤ c1 * c2 :=
    mul_le_mul c1_lo c2_lo (by norm_num) c10
  have C_hi : c1 * c2 ≤ (0.8786 : ℝ) * 0.9453 :=
    mul_le_mul c1_hi c2_hi c20 (by norm_num)
  have D_lo : (0.8752 : ℝ) * 0.9445 * (0.03778 * 0.03778) ≤ c1 * c2 * (sv * sv) :=
    mul_le_mul C_lo B_lo (by norm_num) (mul_nonneg c10 c20)
  have D_hi : c1 * c2 * (sv * sv) ≤ (0.8786 : ℝ) * 0.9453 * (0.037798 * 0.037798) :=
    mul_le_mul C_hi B_hi (mul_nonneg sv0 sv0) (by norm_num)
  have hassoc : c1 * c2 * sv * sv = c1 * c2 * (sv * sv) := by ring
  rw [hassoc]
  constructor
  · have : (0.00808 : ℝ) ≤ 0.08308 * 0.08308 + 0.8752 * 0.9445 * (0.03778 * 0.03778) := by
      norm_num
    linarith
  · have : (0.083235 : ℝ) * 0.083235 + 0.8786 * 0.9453 * (0.037798 * 0.037798) ≤ 0.00812 := by
      norm_num
    linarith

/-- The two sines of the Delhi-Mumbai term. -/
theorem delhiMumbai_sines :
    (0.08308 ≤ Real.sin (9.5379 * Real.pi / 360) ∧
      Real.sin (9.5379 * Real.pi / 360) ≤ 0.083235) ∧
    (0.03778 ≤ Real.sin (4.3313 * Real.pi / 360) ∧
      Real.sin (4.3313 * Real.pi / 360) ≤ 0.037798) := by
  have hpl := Real.pi_gt_d4
  have hph := Real.pi_lt_d4
  obtain ⟨su1, su2⟩ := sin_between (9.5379 * Real.pi / 360) 0.08323 0.083235
    (by linarith) (by linarith) (by norm_num) (by norm_num)
  obtain ⟨sv1, sv2⟩ := sin_between (4.3313 * Real.pi / 360) 0.037796 0.037798
    (by linarith) (by linarith) (by norm_num) (by norm_num)
  refine ⟨⟨le_trans (by norm_num) su1, su2⟩, ⟨le_trans (by norm_num) sv1, sv2⟩⟩

/-- The two cosines of the Delhi-Mumbai term. -/
theorem delhiMumbai_cosines :
    (0.8752 ≤ Real.cos (28.6139 * Real.pi / 180) ∧
      Real.cos (28.6139 * Real.pi / 180) ≤ 0.8786) ∧
    (0.9445 ≤ Real.cos (19.0760 * Real.pi / 180) ∧
      Real.cos (19.0760 * Real.pi / 180) ≤ 0.9453) := by
  have hpl := Real.pi_gt_d4
  have hph := Real.pi_lt_d4
  obtain ⟨c11, c12⟩ := cos_between (28.6139 * Real.pi / 180) 0.49939 0.49941
    (by linarith) (by linarith) (by norm_num) (by norm_num)
  obtain ⟨c21, c22⟩ := cos_between (19.0760 * Real.pi / 180) 0.33292 0.33294
    (by linarith) (by linarith) (by norm_num) (by norm_num)
  refine ⟨⟨le_trans (by norm_num) c11, le_trans c12 (by norm_num)⟩,
    ⟨le_trans (by norm_num) c21, le_trans c22 (by norm_num)⟩⟩

/-- The haversine term of the Delhi-Mumbai example is about 0.0081. -/
theorem delhiMumbai_term :
    0.00808 ≤ haversineTerm realMath 28.6139 77.2090 19.0760 72.8777 ∧
      haversineTerm realMath 28.6139 77.2090 19.0760 72.8777 ≤ 0.00812 := by
  have e1 : ((19.0760 : ℝ) - 28.6139) * Real.pi / 180 / 2 = -(9.5379 * Real.pi / 360) := by
    ring
  have e2 : ((72.8777 : ℝ) - 77.2090) * Real.pi / 180 / 2 = -(4.3313 * Real.pi / 360) := by
    ring
  obtain ⟨⟨su_lo, su_hi⟩, ⟨sv_lo, sv_hi⟩⟩ := delhiMumbai_sines
  obtain ⟨⟨c1_lo, c1_hi⟩, ⟨c2_lo, c2_hi⟩⟩ := delhiMumbai_cosines
  have key := term_between _ _ _ _ su_lo su_hi sv_lo sv_hi c1_lo c1_hi c2_lo c2_hi
  have heq : haversineTerm realMath 28.6139 77.2090 19.0760 72.8777 =
      Real.sin (9.5379 * Real.pi / 360) * Real.sin (9.5379 * Real.pi / 360) +
        Real.cos (28.6139 * Real.pi / 180) * Real.cos (19.0760 * Real.pi / 180) *
          Real.sin (4.3313 * Real.pi / 360) * Real.sin (4.3313 * Real.pi / 360) := by
    simp only [haversineTerm, realMath, e1, e2, Real.sin_neg]
    ring
  rw [heq]
  exact key

/-- For a term `a` in [0, 1], `Math.atan2(Math.sqrt(a), Math.sqrt(1 - a))` is
the arcsine of `Math.sqrt(a)`. -/
theorem atan2_sqrt_eq_arcsin (a : ℝ) (h0 : 0 ≤ a) (h1 : a ≤ 1) :
    realMath.atan2 (Real.sqrt a) (Real.sqrt (1 - a)) = Real.arcsin (Real.sqrt a) := by
  show Complex.arg ⟨Real.sqrt (1 - a), Real.sqrt a⟩ = _
  rw [Complex.arg_of_re_nonneg (Real.sqrt_nonneg _)]
  have habs : Complex.abs ⟨Real.sqrt (1 - a), Real.sqrt a⟩ = 1 := by
    rw [Complex.abs_apply, Complex.normSq_mk, Real.mul_self_sqrt (by linarith),
      Real.mul_self_sqrt h0]
    simp
  rw [habs]
  simp

/-- The distance of the Delhi-Mumbai example is between 1145 and 1151 km. -/
theorem delhiMumbai_distance :
    1145 ≤ calculateDistance realMath 28.6139 77.2090 19.0760 72.8777 ∧
      calculateDistance realMath 28.6139 77.2090 19.0760 72.8777 ≤ 1151 := by
  obtain ⟨ha_lo, ha_hi⟩ := delhiMumbai_term
  rw [calculateDistance_eq]
  set a := haversineTerm realMath 28.6139 77.2090 19.0760 72.8777
  have h0 : 0 ≤ a := by norm_num at ha_lo; linarith
  have h1 : a ≤ 1 := by norm_num at ha_hi; linarith
  show 1145 ≤ 6371 * (2 * realMath.atan2 (Real.sqrt a) (Real.sqrt (1 - a))) ∧
    6371 * (2 * realMath.atan2 (Real.sqrt a) (Real.sqrt (1 - a))) ≤ 1151
  rw [atan2_sqrt_eq_arcsin a h0 h1]
  have hpi := Real.pi_gt_three
  have hsq0 : 0 ≤ Real.sqrt a := Real.sqrt_nonneg a
  have hsq1 : Real.sqrt a ≤ 1 := by
    rw [Real.sqrt_le_left (by norm_num)]
    linarith
  have hmem : Real.sqrt a ∈ Set.Icc (-1 : ℝ) 1 := ⟨by linarith, hsq1⟩
  have hlo : (0.08988 : ℝ) ≤ Real.arcsin (Real.sqrt a) := by
    rw [Real.le_arcsin_iff_sin_le ⟨by linarith, by linarith⟩ hmem]
    have hs : Real.sin 0.08988 ≤ 0.08988 := (Real.sin_lt (by norm_num)).le
    have hr : (0.08988 : ℝ) ≤ Real.sqrt a := by
      apply Real.le_sqrt_of_sq_le   
      norm_num at ha_lo ⊢
      linarith
    linarith
  have hhi : Real.arcsin (Real.sqrt a) ≤ (0.09031 : ℝ) := by
    rw [Real.arcsin_le_iff_le_sin hmem ⟨by linarith, by linarith⟩]
    have hs := Real.sin_gt_sub_cube (x := 0.09031) (by norm_num) (by norm_num)
    have hr : Real.sqrt a ≤ (0.09012 : ℝ) := by
      rw [Real.sqrt_le_left (by norm_num)]
      norm_num at ha_hi ⊢
      linarith
    norm_num at hs
    linarith
  constructor
  · norm_num at hlo ⊢; linarith
  · norm_num at hhi ⊢; linarith


/-- C13, as amended.  Over the real numbers,
`calculateDistance(28.6139, 77.2090, 19.0760, 72.8777)` lies within 5 km of
1148 km, that is in the interval [1143, 1153]. -/
theorem delhiMumbai_within_five_of_1148 :
    1143 ≤ calculateDistance realMath 28.6139 77.2090 19.0760 72.8777 ∧
      calculateDistance realMath 28.6139 77.2090 19.0760 72.8777 ≤ 1153 := by
  obtain ⟨hlo, hhi⟩ := delhiMumbai_distance
  constructor <;> linarith

/-- C13, counterexample.  Over the real numbers,
`calculateDistance(28.6139, 77.2090, 19.0760, 72.8777)` is not in the interval
[1156, 1166]: it is at most 1151. -/
theorem delhiMumbai_not_within_five_of_1161 :
    ¬ (1156 ≤ calculateDistance realMath 28.6139 77.2090 19.0760 72.8777 ∧
      calculateDistance realMath 28.6139 77.2090 19.0760 72.8777 ≤ 1166) := by
  obtain ⟨_, hhi⟩ := delhiMumbai_distance
  rintro ⟨h, _⟩
  linarith


/-! ## IP geolocation: the provider loop -/

/-- The loop of script.js:622-636 returns at the first provider that does not
throw. -/
theorem providerLoop_append_ok (c : ℚ × ℚ) (post : List (Except JsError (ℚ × ℚ))) :
    ∀ (pre : List (Except JsError (ℚ × ℚ))) (lastError : Option JsError),
      (∀ p ∈ pre, ∃ e, p = Except.error e) →
      providerLoop lastError (pre ++ Except.ok c :: post) =
        (Except.ok { latitude := c.1, longitude := c.2, accuracy := 50000, source := "ip" },
          pre.length + 1)
  | [], _, _ => rfl
  | p :: pre, lastError, h => by
    obtain ⟨e, rfl⟩ := h p (List.mem_cons_self _ _)
    have ih := providerLoop_append_ok c post pre (some e)
      (fun q hq => h q (List.mem_cons_of_mem _ hq))
    show ((providerLoop (some e) (pre ++ Except.ok c :: post)).1,
      (providerLoop (some e) (pre ++ Except.ok c :: post)).2 + 1) = _
    rw [ih]
    rfl

/-- The loop of script.js:622-636 throws exactly when every provider throws. -/
theorem providerLoop_error_iff :
    ∀ (ps : List (Except JsError (ℚ × ℚ))) (lastError : Option JsError),
      (∃ e, (providerLoop lastError ps).1 = Except.error e) ↔
        ∀ p ∈ ps, ∃ e, p = Except.error e
  | [], lastError => by simp [providerLoop]
  | Except.ok c :: ps, lastError => by
    simp only [providerLoop, List.mem_cons, forall_eq_or_imp]
    constructor
    · rintro ⟨e, he⟩
      cases he
    · rintro ⟨⟨e, he⟩, _⟩
      cases he
  | Except.error e :: ps, lastError => by
    simp only [providerLoop, List.mem_cons, forall_eq_or_imp]
    rw [providerLoop_error_iff ps (some e)]
    constructor
    · intro h
      exact ⟨⟨e, rfl⟩, h⟩
    · intro h
      exact h.2

/-- A provider accepts an OK response with `success: true` exactly when both
fields are truthy. -/
theorem ipapiProvider_ok_iff (status : Nat) (hs : statusOk status = true) (data : IpData) :
    (∃ c, ipapiProvider (FetchResult.response status (Body.value data)) = Except.ok c) ↔
      truthyNumber data.latitude = true ∧ truthyNumber data.longitude = true := by
  obtain ⟨success, la, lo⟩ := data
  cases la with
  | none => simp [ipapiProvider, hs, truthyNumber]
  | some la =>
    cases lo with
    | none => simp [ipapiProvider, hs, truthyNumber]
    | some lo =>
      by_cases h1 : la = 0 <;> by_cases h2 : lo = 0 <;>
        simp [ipapiProvider, hs, truthyNumber, h1, h2]

/-- The second provider accepts an OK response with `success: true` and two
non-zero fields. -/
theorem ipwhoProvider_accepts (status : Nat) (hs : statusOk status = true) (la lo : ℚ)
    (hla : la ≠ 0) (hlo : lo ≠ 0) :
    ipwhoProvider (FetchResult.response status (Body.value (ipData la lo))) =
      Except.ok (la, lo) := by
  simp [ipwhoProvider, hs, ipData, hla, hlo]

/-- The loop of `getApproxLocationViaIP` over any list of providers: when the
providers before one throw and that one returns the pair `c`, the result is
`c` with accuracy 50000 and source `ip`, and the providers after it are not
called; the function throws if and only if every provider throws.  With the
two providers of the script, a first response that is not JSON and a second
response carrying `success: true` and a pair with both fields non-zero, the
result is the second pair after two calls. -/
theorem getApproxLocationViaIP_first_accepted (lastError : Option JsError)
    (pre post : List (Except JsError (ℚ × ℚ))) (c : ℚ × ℚ)
    (hpre : ∀ p ∈ pre, ∃ e, p = Except.error e)
    (status1 status2 : Nat) (hs1 : statusOk status1 = true) (hs2 : statusOk status2 = true)
    (la lo : ℚ) (hla : la ≠ 0) (hlo : lo ≠ 0) :
    providerLoop lastError (pre ++ Except.ok c :: post) =
        (Except.ok { latitude := c.1, longitude := c.2, accuracy := 50000, source := "ip" },
          pre.length + 1) ∧
      (∀ (ps : List (Except JsError (ℚ × ℚ))),
        (∃ e, (providerLoop lastError ps).1 = Except.error e) ↔
          ∀ p ∈ ps, ∃ e, p = Except.error e) ∧
      getApproxLocationViaIP (FetchResult.response status1 Body.malformed)
          (FetchResult.response status2 (Body.value (ipData la lo))) =
        (Except.ok { latitude := la, longitude := lo, accuracy := 50000, source := "ip" },
          2) := by
  refine ⟨providerLoop_append_ok c post pre lastError hpre,
    fun ps => providerLoop_error_iff ps lastError, ?_⟩
  unfold getApproxLocationViaIP
  rw [ipwhoProvider_accepts status2 hs2 la lo hla hlo]
  simp [ipapiProvider, hs1, providerLoop]

/-- The statement of `getApproxLocationViaIP_first_accepted` at one provider
that throws before one that returns 12.97 N 77.59 E, and two responses with
status 200. -/
theorem getApproxLocationViaIP_first_accepted_witness :
    providerLoop none ([Except.error JsError.syntaxError] ++ Except.ok (12.97, 77.59) :: []) =
        (Except.ok
          { latitude := (12.97, 77.59).1, longitude := ((12.97 : ℚ), (77.59 : ℚ)).2,
            accuracy := 50000, source := "ip" },
          [Except.error (ε := JsError) (α := ℚ × ℚ) JsError.syntaxError].length + 1) ∧
      getApproxLocationViaIP (FetchResult.response 200 Body.malformed)
          (FetchResult.response 200 (Body.value (ipData 12.97 77.59))) =
        (Except.ok { latitude := 12.97, longitude := 77.59, accuracy := 50000, source := "ip" },
          2) := by
  have h := getApproxLocationViaIP_first_accepted none [Except.error JsError.syntaxError] []
    (12.97, 77.59) (by intro p hp; exact ⟨JsError.syntaxError, List.mem_singleton.mp hp⟩)
    200 200 (by decide) (by decide) 12.97 77.59 (by norm_num) (by norm_num)
  exact ⟨h.1, h.2.2⟩

/-- What `getApproxLocationViaIP` returns, by what the two providers give: the
first provider's pair after one call, else the second provider's pair after
two calls, else the second provider's error. -/
theorem getApproxLocationViaIP_cases (r1 r2 : FetchResult IpData) :
    getApproxLocationViaIP r1 r2 =
      match ipapiProvider r1 with
      | Except.ok c =>
        (Except.ok { latitude := c.1, longitude := c.2, accuracy := 50000, source := "ip" }, 1)
      | Except.error _ =>
        match ipwhoProvider r2 with
        | Except.ok c =>
          (Except.ok { latitude := c.1, longitude := c.2, accuracy := 50000, source := "ip" },
            2)
        | Except.error e => (Except.error e, 2) := by
  unfold getApproxLocationViaIP
  cases ipapiProvider r1 with
  | ok c => rfl
  | error e1 =>
    cases ipwhoProvider r2 with
    | ok c => rfl
    | error e2 => rfl

/-- C19, the code at the failing input.  The first provider answers with a body
that is not JSON and the second with `success: true` and the valid pair
latitude 0, longitude 32.58: `getApproxLocationViaIP` throws `ipwho.is invalid`
after calling both.  With latitude 12.97 in place of 0 it returns the second
provider's pair after two calls; and when the first provider answers with that
pair it returns it after one call, the second provider not being called. -/
theorem getApproxLocationViaIP_fails_on_zero_pair :
    getApproxLocationViaIP (FetchResult.response 200 Body.malformed)
        (FetchResult.response 200 (Body.value (ipData 0 32.58))) =
        (Except.error (JsError.error "ipwho.is invalid"), 2) ∧
      getApproxLocationViaIP (FetchResult.response 200 Body.malformed)
        (FetchResult.response 200 (Body.value (ipData 12.97 77.59))) =
        (Except.ok { latitude := 12.97, longitude := 77.59, accuracy := 50000, source := "ip" },
          2) ∧
      getApproxLocationViaIP (FetchResult.response 200 (Body.value (ipData 12.97 77.59)))
        (FetchResult.response 200 (Body.value (ipData 0 32.58))) =
        (Except.ok { latitude := 12.97, longitude := 77.59, accuracy := 50000, source := "ip" },
          1) := by
  have hbad : ipwhoProvider (FetchResult.response 200 (Body.value (ipData 0 32.58))) =
      Except.error (JsError.error "ipwho.is invalid") := by
    simp [ipwhoProvider, statusOk, ipData]
  have hmal : ipapiProvider (FetchResult.response 200 Body.malformed) =
      Except.error JsError.syntaxError := by
    simp [ipapiProvider, statusOk]
  have hgood2 : ipwhoProvider (FetchResult.response 200 (Body.value (ipData 12.97 77.59))) =
      Except.ok (12.97, 77.59) :=
    ipwhoProvider_accepts 200 (by decide) 12.97 77.59 (by norm_num) (by norm_num)
  have hgood1 : ipapiProvider (FetchResult.response 200 (Body.value (ipData 12.97 77.59))) =
      Except.ok (12.97, 77.59) := by
    simp [ipapiProvider, statusOk, ipData]
    norm_num
  refine ⟨?_, ?_, ?_⟩
  · rw [getApproxLocationViaIP_cases, hmal, hbad]
  · rw [getApproxLocationViaIP_cases, hmal, hgood2]
  · rw [getApproxLocationViaIP_cases, hgood1]

/-- C20, the code at the failing input.  A response with status 200 carrying
`success: true`, latitude 0 and longitude 32.58 is rejected by both providers
as invalid, and `getApproxLocationViaIP` throws after calling both; the same
response with latitude 1 is accepted. -/
theorem ipProviders_reject_zero :
    ipapiProvider (FetchResult.response 200 (Body.value (ipData 0 32.58))) =
        Except.error (JsError.error "ipapi.co invalid") ∧
      ipwhoProvider (FetchResult.response 200 (Body.value (ipData 0 32.58))) =
        Except.error (JsError.error "ipwho.is invalid") ∧
      getApproxLocationViaIP (FetchResult.response 200 (Body.value (ipData 0 32.58)))
          (FetchResult.response 200 (Body.value (ipData 0 32.58))) =
        (Except.error (JsError.error "ipwho.is invalid"), 2) ∧
      ipapiProvider (FetchResult.response 200 (Body.value (ipData 1 32.58))) =
        Except.ok (1, 32.58) := by
  have h1 : ipapiProvider (FetchResult.response 200 (Body.value (ipData 0 32.58))) =
      Except.error (JsError.error "ipapi.co invalid") := by
    simp [ipapiProvider, statusOk, ipData]
  have h2 : ipwhoProvider (FetchResult.response 200 (Body.value (ipData 0 32.58))) =
      Except.error (JsError.error "ipwho.is invalid") := by
    simp [ipwhoProvider, statusOk, ipData]
  refine ⟨h1, h2, ?_, ?_⟩
  · unfold getApproxLocationViaIP
    rw [h1, h2]
    rfl
  · simp [ipapiProvider, statusOk, ipData]
    norm_num


/-! ## Municipal lookup: the reverse-geocode step -/

/-- C18, the code at the failing input.  For a reverse-geocode response with
status 429 the inner `try` throws the rate-limit error, which differs from the
error for status 500; the `catch` of script.js:767-770 replaces either by the
one connection error, so that the error thrown to the outer handler for status
429 is exactly the one for a rejected request and for status 500, and
`findNearestMunicipalAuthority` ends for status 429 exactly as it ends for a
rejected request and for status 500. -/
theorem findNearestMunicipalAuthority_rate_limit_not_distinguished :
    reverseStatusError 429 =
        some (JsError.error "Rate limit exceeded. Please try again in a moment.") ∧
      reverseStatusError 429 ≠ reverseStatusError 500 ∧
      authorityTry realMath (FetchResult.response 429 Body.malformed)
          searchAlwaysNear 28.6139 77.2090 =
        (Except.error unableToConnect, []) ∧
      authorityTry realMath (FetchResult.response 429 Body.malformed)
          searchAlwaysNear 28.6139 77.2090 =
        authorityTry realMath FetchResult.networkError searchAlwaysNear 28.6139 77.2090 ∧
      authorityTry realMath (FetchResult.response 429 Body.malformed)
          searchAlwaysNear 28.6139 77.2090 =
        authorityTry realMath (FetchResult.response 500 Body.malformed)
          searchAlwaysNear 28.6139 77.2090 ∧
      findNearestMunicipalAuthority realMath (FetchResult.response 429 Body.malformed)
          searchAlwaysNear 28.6139 77.2090 =
        findNearestMunicipalAuthority realMath FetchResult.networkError
          searchAlwaysNear 28.6139 77.2090 ∧
      findNearestMunicipalAuthority realMath (FetchResult.response 429 Body.malformed)
          searchAlwaysNear 28.6139 77.2090 =
        findNearestMunicipalAuthority realMath (FetchResult.response 500 Body.malformed)
          searchAlwaysNear 28.6139 77.2090 := by
  have h500 : authorityTry realMath (FetchResult.response 429 Body.malformed)
      searchAlwaysNear 28.6139 77.2090 =
      authorityTry realMath (FetchResult.response 500 Body.malformed)
        searchAlwaysNear 28.6139 77.2090 := by
    simp [authorityTry, reverseStatusError, statusOk]
  refine ⟨by decide, by decide, rfl, rfl, h500, rfl, ?_⟩
  unfold findNearestMunicipalAuthority
  rw [h500]

/-- With the first element as both the start value and the only element, the
loop of script.js:1325-1328 keeps it. -/
theorem closestOfficeCoords_single {F : Type} [LinearOrderedField F] (M : MathOps F)
    (lat lon : F) (first : SearchItem F) :
    closestOfficeCoords M lat lon first [] = first := by
  unfold closestOfficeCoords closestLoopCoords
  cases h : distanceTo M lat lon first <;> simp [jsLt, closestLoopCoords]

/-- The lightweight loop returns `null` when no term has a result. -/
theorem coordsLoop_none {F : Type} [LinearOrderedField F] (M : MathOps F) (lat lon : F)
    (search : String → FetchResult (List (SearchItem F))) :
    ∀ terms : List String, (∀ t ∈ terms, resultsOf (search t) = []) →
      (coordsLoop M lat lon search terms).1 = none
  | [], _ => rfl
  | term :: rest, h => by
    have ih := coordsLoop_none M lat lon search rest (fun t ht => h t (List.mem_cons_of_mem _ ht))
    have ht := h term (List.mem_cons_self _ _)
    unfold coordsLoop
    cases hs : search term with
    | networkError => rfl
    | response status body =>
      rw [hs] at ht
      by_cases hok : statusOk status = true
      · cases body with
        | malformed => simp [hok]
        | null => simp [hok, ih]
        | value items =>
          simp only [resultsOf, hok, if_true] at ht
          subst ht
          simp [hok, ih]
      · simp [hok, ih]

/-- A skipped term sends the loop of script.js:1316-1331 to the next term. -/
theorem coordsLoop_cons_of_skips {F : Type} [LinearOrderedField F] (M : MathOps F)
    (lat lon : F) (search : String → FetchResult (List (SearchItem F)))
    (term : String) (rest : List String) (h : coordsSkips (search term) = true) :
    coordsLoop M lat lon search (term :: rest) =
      ((coordsLoop M lat lon search rest).1, term :: (coordsLoop M lat lon search rest).2) := by
  rw [coordsLoop]
  cases hs : search term with
  | networkError => rw [hs] at h; simp [coordsSkips] at h
  | response status body =>
    rw [hs] at h
    by_cases hok : statusOk status = true
    · cases body with
      | malformed => simp [coordsSkips, hok] at h
      | null => simp [hok]
      | value items =>
        cases items with
        | nil => simp [hok]
        | cons first others => simp [coordsSkips, hok] at h
    · simp [hok]

/-- A rejected request, or an OK response whose body is not JSON, ends the
lookup of script.js:1297-1336 with `null`. -/
theorem coordsLoop_cons_of_aborts {F : Type} [LinearOrderedField F] (M : MathOps F)
    (lat lon : F) (search : String → FetchResult (List (SearchItem F)))
    (term : String) (rest : List String) (h : coordsAborts (search term) = true) :
    coordsLoop M lat lon search (term :: rest) = (none, [term]) := by
  rw [coordsLoop]
  cases hs : search term with
  | networkError => rfl
  | response status body =>
    rw [hs] at h
    cases body with
    | malformed =>
      have hok : statusOk status = true := by simpa [coordsAborts] using h
      simp [hok]
    | null => simp [coordsAborts] at h
    | value items => simp [coordsAborts] at h

/-- A term with results ends the loop of script.js:1316-1331 with the closest
pick. -/
theorem coordsLoop_cons_of_results {F : Type} [LinearOrderedField F] (M : MathOps F)
    (lat lon : F) (search : String → FetchResult (List (SearchItem F)))
    (term : String) (rest : List String) (status : Nat)
    (first : SearchItem F) (others : List (SearchItem F))
    (hs : search term = FetchResult.response status (Body.value (first :: others)))
    (hok : statusOk status = true) :
    coordsLoop M lat lon search (term :: rest) =
      (some
        { lat := (closestOfficeCoords M lat lon first others).lat
          lon := (closestOfficeCoords M lat lon first others).lon
          name := (closestOfficeCoords M lat lon first others).display_name }, [term]) := by
  rw [coordsLoop, hs]
  simp [hok]

/-- The loop of script.js:1316-1331 after a run of skipped terms. -/
theorem coordsLoop_append_of_skips {F : Type} [LinearOrderedField F] (M : MathOps F)
    (lat lon : F) (search : String → FetchResult (List (SearchItem F)))
    (rest : List String) :
    ∀ pre : List String, (∀ u ∈ pre, coordsSkips (search u) = true) →
      coordsLoop M lat lon search (pre ++ rest) =
        ((coordsLoop M lat lon search rest).1, pre ++ (coordsLoop M lat lon search rest).2)
  | [], _ => rfl
  | u :: pre, h => by
    have ih := coordsLoop_append_of_skips M lat lon search rest pre
      (fun v hv => h v (List.mem_cons_of_mem _ hv))
    rw [List.cons_append,
      coordsLoop_cons_of_skips M lat lon search u _ (h u (List.mem_cons_self _ _)), ih]
    rfl

/-- C14, as amended.  For a reverse-geocode response that succeeds but carries
no address (the body is `null` or an object without `address`),
`findNearestMunicipalAuthority` issues no place search and shows neither an
office nor the `no office` information: its `try` block throws
`No address data found for this location` to the outer handler.
`findNearestMunicipalOfficeCoords` takes the city as the empty string and runs
its search loop over the five terms built from it: after terms that are
skipped (status not OK, falsy body, empty array) the first term with results
gives the office, the closest pick of these results; a rejected request or an
OK response that is not JSON gives `null` at once; and `null` is returned when
all five terms are skipped. -/
theorem municipal_lookup_without_address {F : Type} [LinearOrderedField F] (M : MathOps F)
    (status : Nat) (body : Body ReverseData)
    (search : String → FetchResult (List (SearchItem F))) (lat lon : F)
    (hok : statusOk status = true)
    (hbody : body = Body.null ∨ body = Body.value noAddress) :
    authorityTry M (FetchResult.response status body) search lat lon =
        (Except.error (JsError.error "No address data found for this location"), []) ∧
      (findNearestMunicipalAuthority M (FetchResult.response status body) search
        lat lon).2 = [] ∧
      (∀ o, (findNearestMunicipalAuthority M (FetchResult.response status body) search
        lat lon).1 ≠ MunicipalOutcome.office o) ∧
      (∀ city state county postalCode country,
        (findNearestMunicipalAuthority M (FetchResult.response status body) search
          lat lon).1 ≠ MunicipalOutcome.noOffice city state county postalCode country) ∧
      findNearestMunicipalOfficeCoords M (FetchResult.response status body) search lat lon =
        coordsLoop M lat lon search
          [" municipal corporation", " municipal office", " city corporation",
            " municipality", "municipal corporation "] ∧
      (∀ (pre post : List String) (term : String) (st : Nat)
          (first : SearchItem F) (others : List (SearchItem F)),
        [" municipal corporation", " municipal office", " city corporation",
            " municipality", "municipal corporation "] = pre ++ term :: post →
        (∀ u ∈ pre, coordsSkips (search u) = true) →
        search term = FetchResult.response st (Body.value (first :: others)) →
        statusOk st = true →
        findNearestMunicipalOfficeCoords M (FetchResult.response status body) search
            lat lon =
          (some
            { lat := (closestOfficeCoords M lat lon first others).lat
              lon := (closestOfficeCoords M lat lon first others).lon
              name := (closestOfficeCoords M lat lon first others).display_name },
            pre ++ [term])) ∧
      (∀ (pre post : List String) (term : String),
        [" municipal corporation", " municipal office", " city corporation",
            " municipality", "municipal corporation "] = pre ++ term :: post →
        (∀ u ∈ pre, coordsSkips (search u) = true) →
        coordsAborts (search term) = true →
        findNearestMunicipalOfficeCoords M (FetchResult.response status body) search
            lat lon = (none, pre ++ [term])) ∧
      ((∀ t ∈ [" municipal corporation", " municipal office", " city corporation",
            " municipality", "municipal corporation "], coordsSkips (search t) = true) →
        findNearestMunicipalOfficeCoords M (FetchResult.response status body) search
            lat lon =
          (none, [" municipal corporation", " municipal office", " city corporation",
            " municipality", "municipal corporation "])) := by
  have hne : status ≠ 429 := by
    rintro rfl
    revert hok
    decide
  have hterms : searchTermsCoords "" =
      [" municipal corporation", " municipal office", " city corporation",
        " municipality", "municipal corporation "] := by decide
  have h1 : authorityTry M (FetchResult.response status body) search lat lon =
      (Except.error (JsError.error "No address data found for this location"), []) := by
    rcases hbody with rfl | rfl <;>
      simp [authorityTry, reverseStatusError, hok, hne, noAddress]
  have h1' : findNearestMunicipalAuthority M (FetchResult.response status body) search
      lat lon = (MunicipalOutcome.error (JsError.referenceError "city"), []) := by
    unfold findNearestMunicipalAuthority
    rw [h1]
  have h2 : findNearestMunicipalOfficeCoords M (FetchResult.response status body) search
      lat lon = coordsLoop M lat lon search (searchTermsCoords "") := by
    rcases hbody with rfl | rfl <;> simp [findNearestMunicipalOfficeCoords, hok, noAddress]
  rw [hterms] at h2
  refine ⟨h1, by rw [h1'], ?_, ?_, h2, ?_, ?_, ?_⟩
  · intro o
    rw [h1']
    exact fun h => by cases h
  · intro city state county postalCode country
    rw [h1']
    exact fun h => by cases h
  · intro pre post term st first others hsplit hpre hs hst
    rw [h2, hsplit, coordsLoop_append_of_skips M lat lon search _ pre hpre,
      coordsLoop_cons_of_results M lat lon search term post st first others hs hst]
  · intro pre post term hsplit hpre habort
    rw [h2, hsplit, coordsLoop_append_of_skips M lat lon search _ pre hpre,
      coordsLoop_cons_of_aborts M lat lon search term post habort]
  · intro hall
    rw [h2]
    have := coordsLoop_append_of_skips M lat lon search []
      [" municipal corporation", " municipal office", " city corporation",
        " municipality", "municipal corporation "] hall
    simpa [coordsLoop] using this

/-- Witness of `municipal_lookup_without_address`: status 200, an object
without `address`, searches that answer every term with an empty array. -/
theorem municipal_lookup_without_address_witness :
    authorityTry realMath (FetchResult.response 200 (Body.value noAddress))
        searchNothing 28.6139 77.2090 =
        (Except.error (JsError.error "No address data found for this location"), []) ∧
      findNearestMunicipalOfficeCoords realMath
        (FetchResult.response 200 (Body.value noAddress)) searchNothing 28.6139 77.2090 =
        (none, [" municipal corporation", " municipal office", " city corporation",
          " municipality", "municipal corporation "]) := by
  have h := municipal_lookup_without_address realMath 200 (Body.value noAddress) searchNothing
    28.6139 77.2090 (by decide) (Or.inr rfl)
  exact ⟨h.1, h.2.2.2.2.2.2.2 (fun t _ => rfl)⟩

/-- C14, counterexample.  The reverse-geocode response has status 200 and no
address.  `findNearestMunicipalAuthority` does not show the `no office`
information: its `try` block throws `No address data found for this location`
and the function ends in an uncaught error.  `findNearestMunicipalOfficeCoords`
queries ` municipal corporation` and, the search answering with one result,
returns that result as the office. -/
theorem municipal_lookup_without_address_counterexample :
    authorityTry realMath (FetchResult.response 200 (Body.value noAddress))
        searchAlwaysNear 28.6139 77.2090 =
        (Except.error (JsError.error "No address data found for this location"), []) ∧
      (findNearestMunicipalAuthority realMath (FetchResult.response 200 (Body.value noAddress))
        searchAlwaysNear 28.6139 77.2090).1 =
        MunicipalOutcome.error (JsError.referenceError "city") ∧
      findNearestMunicipalOfficeCoords realMath
        (FetchResult.response 200 (Body.value noAddress)) searchAlwaysNear 28.6139 77.2090 =
        (some { lat := some 28.6, lon := some 77.2, name := "Municipal Corporation, New Delhi" },
          [" municipal corporation"]) := by
  have h1 : authorityTry realMath (FetchResult.response 200 (Body.value noAddress))
      searchAlwaysNear 28.6139 77.2090 =
      (Except.error (JsError.error "No address data found for this location"), []) := by
    simp [authorityTry, reverseStatusError, statusOk, noAddress]
  refine ⟨h1, ?_, ?_⟩
  · unfold findNearestMunicipalAuthority
    rw [h1]
  · simp [findNearestMunicipalOfficeCoords, statusOk, noAddress, searchTermsCoords, coordsLoop,
      searchAlwaysNear, closestOfficeCoords_single, itemNear]

/-! ## Municipal lookup: the search loop -/

/-- A term without result sends the loop of script.js:816-862 to the next
term. -/
theorem searchLoop_cons_of_empty {F : Type} [LinearOrderedField F] (M : MathOps F)
    (lat lon : F) (search : String → FetchResult (List (SearchItem F)))
    (term : String) (rest : List String) (h : resultsOf (search term) = []) :
    searchLoop M lat lon search (term :: rest) =
      ((searchLoop M lat lon search rest).1, term :: (searchLoop M lat lon search rest).2) := by
  rw [searchLoop]
  cases hs : search term with
  | networkError => rfl
  | response status body =>
    rw [hs] at h
    by_cases h429 : status = 429
    · simp [h429]
    · by_cases hok : statusOk status = true
      · cases body with
        | malformed => simp [h429, hok]
        | null => simp [h429, hok]
        | value items =>
          simp only [resultsOf, hok, if_true] at h
          subst h
          simp [h429, hok]
      · simp [h429, hok]

/-- A term with results ends the loop of script.js:816-862. -/
theorem searchLoop_cons_of_results {F : Type} [LinearOrderedField F] (M : MathOps F)
    (lat lon : F) (search : String → FetchResult (List (SearchItem F)))
    (term : String) (rest : List String) (first : SearchItem F) (others : List (SearchItem F))
    (h : resultsOf (search term) = first :: others) :
    searchLoop M lat lon search (term :: rest) =
      (some (closestOffice M lat lon first others), [term]) := by
  rw [searchLoop]
  cases hs : search term with
  | networkError => rw [hs] at h; simp [resultsOf] at h
  | response status body =>
    rw [hs] at h
    have hok : statusOk status = true := by
      by_contra hn
      cases body <;> simp [resultsOf, hn] at h
    have h429 : status ≠ 429 := by
      rintro rfl
      revert hok
      decide
    cases body with
    | malformed => simp [resultsOf] at h
    | null => simp [resultsOf] at h
    | value items =>
      simp only [resultsOf, hok, if_true] at h
      subst h
      simp [h429, hok]

/-- The loop of script.js:816-862 stops at the first term with results. -/
theorem searchLoop_first_hit {F : Type} [LinearOrderedField F] (M : MathOps F)
    (lat lon : F) (search : String → FetchResult (List (SearchItem F)))
    (term : String) (post : List String) (first : SearchItem F) (others : List (SearchItem F))
    (h : resultsOf (search term) = first :: others) :
    ∀ pre : List String, (∀ u ∈ pre, resultsOf (search u) = []) →
      searchLoop M lat lon search (pre ++ term :: post) =
        (some (closestOffice M lat lon first others), pre ++ [term])
  | [], _ => searchLoop_cons_of_results M lat lon search term post first others h
  | u :: pre, hpre => by
    have ih := searchLoop_first_hit M lat lon search term post first others h pre
      (fun v hv => hpre v (List.mem_cons_of_mem _ hv))
    rw [List.cons_append,
      searchLoop_cons_of_empty M lat lon search u _ (hpre u (List.mem_cons_self _ _)), ih]
    rfl

/-- Without any term with results the loop of script.js:816-862 queries every
term and finds no office. -/
theorem searchLoop_no_hit {F : Type} [LinearOrderedField F] (M : MathOps F)
    (lat lon : F) (search : String → FetchResult (List (SearchItem F))) :
    ∀ terms : List String, (∀ u ∈ terms, resultsOf (search u) = []) →
      searchLoop M lat lon search terms = (none, terms)
  | [], _ => rfl
  | u :: terms, h => by
    have ih := searchLoop_no_hit M lat lon search terms
      (fun v hv => h v (List.mem_cons_of_mem _ hv))
    rw [searchLoop_cons_of_empty M lat lon search u _ (h u (List.mem_cons_self _ _)), ih]

/-- The loop of script.js:839-849 returns its start value or an element of the
array. -/
theorem closestLoop_mem {F : Type} [LinearOrderedField F] (M : MathOps F) (lat lon : F) :
    ∀ (items : List (SearchItem F)) (acc : Option F × SearchItem F),
      (closestLoop M lat lon acc items).2 = acc.2 ∨
        (closestLoop M lat lon acc items).2 ∈ items
  | [], acc => Or.inl rfl
  | office :: rest, (minDistance, closest) => by
    unfold closestLoop
    cases hla : office.lat with
    | none =>
      rcases closestLoop_mem M lat lon rest (minDistance, closest) with h | h
      · exact Or.inl h
      · exact Or.inr (List.mem_cons_of_mem _ h)
    | some la =>
      cases hlo : office.lon with
      | none =>
        rcases closestLoop_mem M lat lon rest (minDistance, closest) with h | h
        · exact Or.inl h
        · exact Or.inr (List.mem_cons_of_mem _ h)
      | some lo =>
        simp only []
        split
        · rcases closestLoop_mem M lat lon rest
            (some (calculateDistance M lat lon la lo), office) with h | h
          · exact Or.inr (by rw [h]; exact List.mem_cons_self _ _)
          · exact Or.inr (List.mem_cons_of_mem _ h)
        · rcases closestLoop_mem M lat lon rest (minDistance, closest) with h | h
          · exact Or.inl h
          · exact Or.inr (List.mem_cons_of_mem _ h)

/-- The closest pick is one of the results. -/
theorem closestOffice_mem {F : Type} [LinearOrderedField F] (M : MathOps F) (lat lon : F)
    (first : SearchItem F) (others : List (SearchItem F)) :
    closestOffice M lat lon first others ∈ first :: others := by
  unfold closestOffice
  rcases closestLoop_mem M lat lon (first :: others) (distanceTo M lat lon first, first) with h | h
  · rw [h]; exact List.mem_cons_self _ _
  · exact h

/-- C15.  For every list of search terms and every assignment of search
outcomes to terms: when the terms before `term` have no result and `term` has
the results `first :: others`, the loop of `findNearestMunicipalAuthority`
takes its office from these results (the closest pick, one of them) and queries
exactly the terms up to `term`; when no term has a result it queries every
term and leaves no office.  For a reverse-geocode response with an address,
what the function shows is that office, or the `no office` information. -/
theorem searchLoop_first_term_with_results {F : Type} [LinearOrderedField F] (M : MathOps F)
    (lat lon : F) (search : String → FetchResult (List (SearchItem F)))
    (pre post : List String) (term : String)
    (first : SearchItem F) (others : List (SearchItem F))
    (hpre : ∀ u ∈ pre, resultsOf (search u) = [])
    (hterm : resultsOf (search term) = first :: others) :
    searchLoop M lat lon search (pre ++ term :: post) =
        (some (closestOffice M lat lon first others), pre ++ [term]) ∧
      closestOffice M lat lon first others ∈ resultsOf (search term) ∧
      (∀ terms : List String, (∀ u ∈ terms, resultsOf (search u) = []) →
        searchLoop M lat lon search terms = (none, terms)) ∧
      (∀ (status : Nat) (address : Address), statusOk status = true →
        findNearestMunicipalAuthority M
            (FetchResult.response status (Body.value { address := some address }))
            search lat lon =
          match searchLoop M lat lon search
              (searchTerms
                (orString address.city (orString address.town (orString address.village
                  (orString address.municipality (orString address.county "")))))
                (orString address.state (orString address.region ""))) with
          | (some municipalOffice, queried) =>
            (MunicipalOutcome.office municipalOffice, queried)
          | (none, queried) =>
            (MunicipalOutcome.noOffice
              (orString address.city (orString address.town (orString address.village
                (orString address.municipality (orString address.county "")))))
              (orString address.state (orString address.region ""))
              (orString address.county "") (orString address.postcode "")
              (orString address.country ""), queried)) := by
  refine ⟨searchLoop_first_hit M lat lon search term post first others hterm pre hpre, ?_,
    searchLoop_no_hit M lat lon search, ?_⟩
  · rw [hterm]
    exact closestOffice_mem M lat lon first others
  · intro status address hok
    have hne : status ≠ 429 := by
      rintro rfl
      revert hok
      decide
    simp only [findNearestMunicipalAuthority, authorityTry, reverseStatusError, hne, hok,
      if_false, Bool.not_true, Bool.false_eq_true]
    generalize searchLoop M lat lon search _ = res
    obtain ⟨o, queried⟩ := res
    cases o <;> rfl


/-- Witness of `searchLoop_first_term_with_results`: the first term is
rate-limited, the second has two results, the third is not queried. -/
theorem searchLoop_first_term_with_results_witness :
    searchLoop realMath 28.6139 77.2090 searchSecondTerm
        (["Delhi municipal corporation"] ++
          "Delhi municipal office" :: ["Delhi city corporation"]) =
        (some (closestOffice realMath 28.6139 77.2090 itemNear [itemHere]),
          ["Delhi municipal corporation"] ++ ["Delhi municipal office"]) ∧
      closestOffice realMath 28.6139 77.2090 itemNear [itemHere] ∈
        resultsOf (searchSecondTerm "Delhi municipal office") := by
  have h := searchLoop_first_term_with_results realMath 28.6139 77.2090 searchSecondTerm
    ["Delhi municipal corporation"] ["Delhi city corporation"] "Delhi municipal office"
    itemNear [itemHere]
    (by
      intro u hu
      rw [List.mem_singleton] at hu
      subst hu
      simp [searchSecondTerm, resultsOf])
    (by simp [searchSecondTerm, resultsOf, statusOk])
  exact ⟨h.1, h.2.1⟩

/-! ## Municipal lookup: the closest pick -/

/-- While `minDistance` is `NaN` no comparison `distance < minDistance` holds:
the loop of script.js:839-849 changes nothing. -/
theorem closestLoop_nan {F : Type} [LinearOrderedField F] (M : MathOps F) (lat lon : F)
    (closest : SearchItem F) :
    ∀ items : List (SearchItem F), closestLoop M lat lon (none, closest) items = (none, closest)
  | [] => rfl
  | office :: rest => by
    rw [closestLoop]
    cases office.lat <;> cases office.lon <;>
      simp [jsLt, closestLoop_nan M lat lon closest rest]

/-- The same for the loop of script.js:1325-1328. -/
theorem closestLoopCoords_nan {F : Type} [LinearOrderedField F] (M : MathOps F) (lat lon : F)
    (closest : SearchItem F) :
    ∀ items : List (SearchItem F),
      closestLoopCoords M lat lon (none, closest) items = (none, closest)
  | [] => rfl
  | it :: rest => by
    rw [closestLoopCoords]
    cases h : distanceTo M lat lon it <;>
      simp [jsLt, closestLoopCoords_nan M lat lon closest rest]

/-- A first result without numeric coordinates is the pick, whatever follows. -/
theorem closestOffice_of_first_nan {F : Type} [LinearOrderedField F] (M : MathOps F)
    (lat lon : F) (first : SearchItem F) (others : List (SearchItem F))
    (h : distanceTo M lat lon first = none) :
    closestOffice M lat lon first others = first ∧
      closestOfficeCoords M lat lon first others = first := by
  unfold closestOffice closestOfficeCoords
  rw [h, closestLoop_nan, closestLoopCoords_nan]
  exact ⟨rfl, rfl⟩

/-- C16, the code at the failing input.  The search answers with two results,
the first without numeric coordinates, the second at 28.6 N 77.2 E.  The second
is the only result with numeric coordinates, and both closest-pick loops select
the first. -/
theorem closestOffice_selects_non_numeric :
    distanceTo realMath 28.6139 77.2090 itemNear =
        some (calculateDistance realMath 28.6139 77.2090 28.6 77.2) ∧
      distanceTo realMath 28.6139 77.2090 itemNoCoords = none ∧
      closestOffice realMath 28.6139 77.2090 itemNoCoords [itemNear] = itemNoCoords ∧
      closestOfficeCoords realMath 28.6139 77.2090 itemNoCoords [itemNear] = itemNoCoords :=
  ⟨rfl, rfl, closestOffice_of_first_nan realMath 28.6139 77.2090 itemNoCoords [itemNear] rfl⟩

/-- The loop of script.js:839-849 on results that all have numeric coordinates,
started with a numeric `minDistance = m`: the distance it ends with is at most
`m` and at most every distance of the array, and either nothing was closer than
`m` and the start value is kept, or the pick is the first element of the array
at that distance, which is below `m`. -/
theorem closestLoop_spec {F : Type} [LinearOrderedField F] (M : MathOps F) (lat lon : F) :
    ∀ (items : List (SearchItem F)) (m : F) (c : SearchItem F),
      (∀ it ∈ items, ∃ e, distanceTo M lat lon it = some e) →
      ∃ d, (closestLoop M lat lon (some m, c) items).1 = some d ∧ d ≤ m ∧
        (∀ it ∈ items, ∀ e, distanceTo M lat lon it = some e → d ≤ e) ∧
        (((closestLoop M lat lon (some m, c) items).2 = c ∧ d = m) ∨
          (d < m ∧ ∃ i, items[i]? = some (closestLoop M lat lon (some m, c) items).2 ∧
            distanceTo M lat lon (closestLoop M lat lon (some m, c) items).2 = some d ∧
            ∀ (j : Nat) it e, j < i → items[j]? = some it → distanceTo M lat lon it = some e → d < e))
  | [], m, c, _ => ⟨m, rfl, le_refl m, by simp, Or.inl ⟨rfl, rfl⟩⟩
  | office :: rest, m, c, hnum => by
    obtain ⟨e, he⟩ := hnum office (List.mem_cons_self _ _)
    have hrest : ∀ it ∈ rest, ∃ e, distanceTo M lat lon it = some e :=
      fun it hit => hnum it (List.mem_cons_of_mem _ hit)
    have hcoords : ∃ la lo, office.lat = some la ∧ office.lon = some lo ∧
        calculateDistance M lat lon la lo = e := by
      unfold distanceTo at he
      cases hla : office.lat with
      | none => simp [hla] at he
      | some la =>
        cases hlo : office.lon with
        | none => simp [hla, hlo] at he
        | some lo => exact ⟨la, lo, rfl, rfl, by simpa [hla, hlo] using he⟩
    obtain ⟨la, lo, hla, hlo, hcalc⟩ := hcoords
    rw [closestLoop]
    simp only [hla, hlo, hcalc, jsLt, decide_eq_true_eq]
    by_cases hlt : e < m
    · simp only [hlt, if_true]
      obtain ⟨d, hd, hdm, hall, hcase⟩ := closestLoop_spec M lat lon rest e office hrest
      refine ⟨d, hd, le_of_lt (lt_of_le_of_lt hdm hlt), ?_, Or.inr ⟨lt_of_le_of_lt hdm hlt, ?_⟩⟩
      · intro it hit e' he'
        rcases List.mem_cons.mp hit with rfl | hit
        · rw [he] at he'
          cases he'
          exact hdm
        · exact hall it hit e' he'
      · rcases hcase with ⟨hc, hde⟩ | ⟨hde, i, hi, hdist, hfirst⟩
        · refine ⟨0, by simp [hc], by rw [hc, hde]; exact he, ?_⟩
          intro j it e' hj
          exact absurd hj (Nat.not_lt_zero j)
        · refine ⟨i + 1, by simpa using hi, hdist, ?_⟩
          intro j it e' hj hjit he'
          cases j with
          | zero =>
            simp only [List.getElem?_cons_zero, Option.some.injEq] at hjit
            subst hjit
            rw [he] at he'
            cases he'
            exact hde
          | succ k =>
            exact hfirst k it e' (by omega) (by simpa using hjit) he'
    · simp only [hlt, if_false]
      have hme : m ≤ e := not_lt.mp hlt
      obtain ⟨d, hd, hdm, hall, hcase⟩ := closestLoop_spec M lat lon rest m c hrest
      refine ⟨d, hd, hdm, ?_, ?_⟩
      · intro it hit e' he'
        rcases List.mem_cons.mp hit with rfl | hit
        · rw [he] at he'
          cases he'
          exact le_trans hdm hme
        · exact hall it hit e' he'
      · rcases hcase with hkeep | ⟨hde, i, hi, hdist, hfirst⟩
        · exact Or.inl hkeep
        · refine Or.inr ⟨hde, i + 1, by simpa using hi, hdist, ?_⟩
          intro j it e' hj hjit he'
          cases j with
          | zero =>
            simp only [List.getElem?_cons_zero, Option.some.injEq] at hjit
            subst hjit
            rw [he] at he'
            cases he'
            exact lt_of_lt_of_le hde hme
          | succ k =>
            exact hfirst k it e' (by omega) (by simpa using hjit) he'

/-- When the distance of every result is a number, the closest pick of
script.js:836-851 on a non-empty array is the element at some index `i` whose
distance `d` from the point is at most the distance of every element and
strictly below the distance of every element before index `i`: among the
results at the minimal distance it is the first in the provider's order.  The
hypothesis is on the distances: in the doubles of the script a distance can be
`NaN` for numeric coordinates, and a first distance that is `NaN` keeps the
first result (`closestOffice_of_first_nan`). -/
theorem closestOffice_first_minimal {F : Type} [LinearOrderedField F] (M : MathOps F)
    (lat lon : F) (first : SearchItem F) (others : List (SearchItem F))
    (hnum : ∀ it ∈ first :: others, ∃ e, distanceTo M lat lon it = some e) :
    ∃ i d, (first :: others)[i]? = some (closestOffice M lat lon first others) ∧
      distanceTo M lat lon (closestOffice M lat lon first others) = some d ∧
      (∀ it ∈ first :: others, ∀ e, distanceTo M lat lon it = some e → d ≤ e) ∧
      ∀ (j : Nat) it e, j < i → (first :: others)[j]? = some it →
        distanceTo M lat lon it = some e → d < e := by
  obtain ⟨m, hm⟩ := hnum first (List.mem_cons_self _ _)
  unfold closestOffice
  rw [hm]
  obtain ⟨d, _, _, hall, hcase⟩ := closestLoop_spec M lat lon (first :: others) m first hnum
  rcases hcase with ⟨hc, hde⟩ | ⟨_, i, hi, hdist, hfirst⟩
  · refine ⟨0, d, by rw [hc]; simp, by rw [hc, hde]; exact hm, hall, ?_⟩
    intro j it e hj
    exact absurd hj (Nat.not_lt_zero j)
  · exact ⟨i, d, hi, hdist, hall, hfirst⟩


/-- The statement of `closestOffice_first_minimal` at two results with numeric
coordinates, in exact arithmetic. -/
theorem closestOffice_first_minimal_witness :
    ∃ i d, [itemNear, itemHere][i]? =
        some (closestOffice realMath 28.6139 77.2090 itemNear [itemHere]) ∧
      distanceTo realMath 28.6139 77.2090
        (closestOffice realMath 28.6139 77.2090 itemNear [itemHere]) = some d ∧
      (∀ it ∈ [itemNear, itemHere], ∀ e,
        distanceTo realMath 28.6139 77.2090 it = some e → d ≤ e) ∧
      ∀ (j : Nat) it e, j < i → [itemNear, itemHere][j]? = some it →
        distanceTo realMath 28.6139 77.2090 it = some e → d < e :=
  closestOffice_first_minimal realMath 28.6139 77.2090 itemNear [itemHere] (by
    intro it hit
    simp only [List.mem_cons, List.mem_singleton, List.not_mem_nil, or_false] at hit
    rcases hit with rfl | rfl
    · exact ⟨_, rfl⟩
    · exact ⟨_, rfl⟩)

/-! ## Startup load -/

/-- C21, as amended.  The startup load never fails the caller (`loadReports`
is a total function): when the stored entry cannot be read, is absent, is the
empty string or is not parseable as JSON, the in-memory collection is the
empty sequence, and so it is when the stored string parses to `null` (the read
of `reports.length` throws inside the `try`); when the stored string parses to
any other value, the in-memory value is what `JSON.parse` returns, which is a
sequence exactly when that value is an array. -/
theorem loadReports_spec (parse : String → Option Loaded) (text : String) (value : Loaded)
    (htext : text ≠ "") (hparse : parse text = some value) (hvalue : value ≠ Loaded.null) :
    loadReports parse (some (some text)) = value ∧
      ((loadReports parse (some (some text))).isSequence = value.isSequence) ∧
      loadReports parse none = Loaded.sequence [] ∧
      loadReports parse (some none) = Loaded.sequence [] ∧
      loadReports parse (some (some "")) = Loaded.sequence [] ∧
      (∀ other : String, parse other = none →
        loadReports parse (some (some other)) = Loaded.sequence []) ∧
      (∀ other : String, parse other = some Loaded.null →
        loadReports parse (some (some other)) = Loaded.sequence []) := by
  have h1 : loadReports parse (some (some text)) = value := by
    cases value with
    | null => exact absurd rfl hvalue
    | sequence reports => simp [loadReports, truthyString, htext, hparse]
    | notArray json => simp [loadReports, truthyString, htext, hparse]
  refine ⟨h1, by rw [h1], rfl, rfl, rfl, ?_, ?_⟩
  · intro other hother
    by_cases ho : other = ""
    · subst ho; rfl
    · simp [loadReports, truthyString, ho, hother]
  · intro other hother
    by_cases ho : other = ""
    · subst ho; rfl
    · simp [loadReports, truthyString, ho, hother]

/-- Witness of `loadReports_spec`: the stored text `[]`; and the stored text
`null`, which leaves the empty sequence. -/
theorem loadReports_spec_witness :
    loadReports parseSample (some (some "[]")) = Loaded.sequence [] ∧
      loadReports parseSample none = Loaded.sequence [] ∧
      loadReports parseSample (some (some "null")) = Loaded.sequence [] :=
  ⟨(loadReports_spec parseSample "[]" (Loaded.sequence []) (by decide) (by decide)
      (by decide)).1,
    (loadReports_spec parseSample "[]" (Loaded.sequence []) (by decide) (by decide)
      (by decide)).2.2.1,
    (loadReports_spec parseSample "[]" (Loaded.sequence []) (by decide) (by decide)
      (by decide)).2.2.2.2.2.2 "null" (by decide)⟩

/-- C21, counterexample.  The stored text of the empty object parses, reading
its `length` does not throw, and the in-memory value after the load is that
object, which is not a sequence. -/
theorem loadReports_counterexample :
    parseSample "\x7b\x7d" = some (Loaded.notArray "\x7b\x7d") ∧
      loadReports parseSample (some (some "\x7b\x7d")) = Loaded.notArray "\x7b\x7d" ∧
      ¬ ((loadReports parseSample (some (some "\x7b\x7d"))).isSequence = true) := by
  decide

/-! ## Failed writes -/

/-- C22, the code at the failing input.  One stored report, `maxStorageSize`
256 (threshold 230.4), a store that raises an error on every write: the
collection with the new report serializes to 402 bytes, the loop of
script.js:1007-1009 empties it, the write throws, and `handleFormSubmit`
returns with the empty collection: the new report is not in it. -/
theorem handleFormSubmit_loses_new_report_on_failure :
    dataSizeOf stringifyPlain [sampleNew, sampleOld] > threshold (configWithMax 256) ∧
      (handleFormSubmit (configWithMax 256) stringifyPlain sampleEnv storeErrorAlways
        (pendingState [sampleOld])).reports = [] ∧
      sampleNew ∉ (handleFormSubmit (configWithMax 256) stringifyPlain sampleEnv
        storeErrorAlways (pendingState [sampleOld])).reports := by
  have hgt : dataSizeOf stringifyPlain [sampleNew, sampleOld] > threshold (configWithMax 256) := by
    rw [dataSize_two, threshold_configWithMax]; norm_num
  have h := handleFormSubmit_reports_of_gt (configWithMax 256) stringifyPlain sampleEnv
    storeErrorAlways (pendingState [sampleOld]) "data:image/jpeg;base64,CCCC" sampleLocation
    rfl (by decide) rfl (by rw [newReport_configWithMax, sampleNew_eq]; exact hgt)
  exact ⟨hgt, h, by rw [h]; simp⟩

set_option maxRecDepth 100000 in
/-- C25, the code at the failing input.  One stored report with status
`reported`, the store in step, a store that raises quota-exceeded on every
write.  `updateStatus` ends in the uncaught error with the status changed in
memory, the persisted entry unchanged and no alert; `deleteReport` ends in the
uncaught error with the report removed in memory, the persisted entry
unchanged and no alert. -/
theorem updateStatus_deleteReport_throw :
    (updateStatus stringifyPlain storeQuotaAlways "1700000000000" "resolved"
        (pendingState [sampleOld])).2 = some StoreError.quotaExceeded ∧
      (updateStatus stringifyPlain storeQuotaAlways "1700000000000" "resolved"
        (pendingState [sampleOld])).1.reports = [{ sampleOld with status := "resolved" }] ∧
      (updateStatus stringifyPlain storeQuotaAlways "1700000000000" "resolved"
        (pendingState [sampleOld])).1.stored = some (stringifyPlain [sampleOld]) ∧
      (updateStatus stringifyPlain storeQuotaAlways "1700000000000" "resolved"
        (pendingState [sampleOld])).1.alerts = [] ∧
      (deleteReport stringifyPlain storeQuotaAlways true "1700000000000"
        (pendingState [sampleOld])).2 = some StoreError.quotaExceeded ∧
      (deleteReport stringifyPlain storeQuotaAlways true "1700000000000"
        (pendingState [sampleOld])).1.reports = [] ∧
      (deleteReport stringifyPlain storeQuotaAlways true "1700000000000"
        (pendingState [sampleOld])).1.stored = some (stringifyPlain [sampleOld]) ∧
      (deleteReport stringifyPlain storeQuotaAlways true "1700000000000"
        (pendingState [sampleOld])).1.alerts = [] :=
  ⟨rfl, rfl, rfl, rfl, rfl, rfl, rfl, rfl⟩

/-! ## Status values -/

/-- A report of the collection after `setStatusOfFirst` is a report of the
collection before it or has the new status. -/
theorem setStatusOfFirst_status (reportId newStatus : String) :
    ∀ (reports : List Report) (r : Report),
      r ∈ setStatusOfFirst reportId newStatus reports →
        (∃ q ∈ reports, r.status = q.status) ∨ r.status = newStatus
  | [], r, h => by simp [setStatusOfFirst] at h
  | p :: rs, r, h => by
    rw [setStatusOfFirst] at h
    by_cases hp : (p.id == reportId) = true
    · rw [if_pos hp, List.mem_cons] at h
      rcases h with rfl | h
      · exact Or.inr rfl
      · exact Or.inl ⟨r, List.mem_cons_of_mem _ h, rfl⟩
    · rw [if_neg hp, List.mem_cons] at h
      rcases h with rfl | h
      · exact Or.inl ⟨r, List.mem_cons_self _ _, rfl⟩
      · rcases setStatusOfFirst_status reportId newStatus rs r h with ⟨q, hq, hs⟩ | hs
        · exact Or.inl ⟨q, List.mem_cons_of_mem _ hq, hs⟩
        · exact Or.inr hs

/-- The collection after `handleFormSubmit` holds reports of the collection
before it and, at most, the new report. -/
theorem handleFormSubmit_reports_subset (cfg : Config) (stringify : List Report → String)
    (env : SubmitEnv) (out : Nat → Option StoreError) (st : AppState) :
    (handleFormSubmit cfg stringify env out st).reports = st.reports ∨
      ∃ image loc, st.currentImage = some image ∧ st.currentLocation = some loc ∧
        (handleFormSubmit cfg stringify env out st).reports.Sublist
          (newReport cfg env image loc :: st.reports) := by
  cases hi : st.currentImage with
  | none => left; simp [handleFormSubmit, hi, alert]
  | some image =>
    cases hl : st.currentLocation with
    | none => left; simp [handleFormSubmit, hi, hl, alert]
    | some loc =>
      by_cases hne : image = ""
      · left; simp [handleFormSubmit, hi, hl, hne, alert]
      · right
        refine ⟨image, loc, rfl, rfl, ?_⟩
        by_cases hsize : dataSizeOf stringify (newReport cfg env image loc :: st.reports) ≤
            threshold cfg
        · rw [handleFormSubmit_reports_of_le cfg stringify env out st image loc hi hne hl hsize]
          split
          · exact List.Sublist.cons₂ _ (List.dropLast_sublist _)
          · exact List.Sublist.refl _
        · rw [handleFormSubmit_reports_of_gt cfg stringify env out st image loc hi hne hl
            (not_le.mp hsize)]
          exact List.nil_sublist _

/-- C24, as amended.  Starting from a collection in which every status is one
of `reported`, `in-progress`, `resolved`, the property is preserved by
`deleteReport`, by `handleFormSubmit` when `config.status.default || 'reported'`
is one of the three, and by `updateStatus(id, newStatus)` when `newStatus` is
one of the three. -/
theorem status_options_preserved (cfg : Config) (stringify : List Report → String)
    (env : SubmitEnv) (out : Nat → Option StoreError) (st : AppState)
    (hvalid : ∀ r ∈ st.reports, isStatusOption r.status = true) :
    (isStatusOption (orString cfg.statusDefault "reported") = true →
        ∀ r ∈ (handleFormSubmit cfg stringify env out st).reports,
          isStatusOption r.status = true) ∧
      (∀ (confirmed : Bool) (reportId : String),
        ∀ r ∈ (deleteReport stringify out confirmed reportId st).1.reports,
          isStatusOption r.status = true) ∧
      (∀ reportId newStatus : String, isStatusOption newStatus = true →
        ∀ r ∈ (updateStatus stringify out reportId newStatus st).1.reports,
          isStatusOption r.status = true) := by
  refine ⟨?_, ?_, ?_⟩
  · intro hdef r hr
    rcases handleFormSubmit_reports_subset cfg stringify env out st with h | ⟨image, loc, _, _, h⟩
    · rw [h] at hr
      exact hvalid r hr
    · rcases List.mem_cons.mp (h.subset hr) with rfl | hmem
      · exact hdef
      · exact hvalid r hmem
  · intro confirmed reportId r hr
    cases confirmed with
    | false => exact hvalid r (by simpa [deleteReport] using hr)
    | true =>
      simp only [deleteReport, if_true, setItem_reports] at hr
      exact hvalid r (List.mem_of_mem_filter hr)
  · intro reportId newStatus hnew r hr
    unfold updateStatus at hr
    cases hfind : st.reports.find? (fun q => q.id == reportId) with
    | none =>
      rw [hfind] at hr
      exact hvalid r hr
    | some found =>
      rw [hfind] at hr
      by_cases hsame : found.status = newStatus
      · simp only [hsame, if_true] at hr
        exact hvalid r hr
      · simp only [hsame, if_false, setItem_reports] at hr
        rcases setStatusOfFirst_status reportId newStatus st.reports r hr with ⟨q, hq, hs⟩ | hs
        · rw [hs]; exact hvalid q hq
        · rw [hs]; exact hnew

set_option maxRecDepth 100000 in
/-- Witness of `status_options_preserved`: one stored report with status
`reported`, set to `resolved`. -/
theorem status_options_preserved_witness :
    (∀ r ∈ (pendingState [sampleOld]).reports, isStatusOption r.status = true) ∧
      (∀ r ∈ (updateStatus stringifyPlain storeOk "1700000000000" "resolved"
        (pendingState [sampleOld])).1.reports, isStatusOption r.status = true) :=
  ⟨by decide,
    (status_options_preserved defaultConfig stringifyPlain sampleEnv storeOk
      (pendingState [sampleOld]) (by decide)).2.2 "1700000000000" "resolved" (by decide)⟩

set_option maxRecDepth 100000 in
/-- C24, counterexample.  One stored report with status `reported`:
`updateStatus('1700000000000', 'archived')` leaves it with the status
`archived`, which is none of the three. -/
theorem status_options_counterexample :
    (∀ r ∈ (pendingState [sampleOld]).reports, isStatusOption r.status = true) ∧
      (updateStatus stringifyPlain storeOk "1700000000000" "archived"
        (pendingState [sampleOld])).1.reports = [{ sampleOld with status := "archived" }] ∧
      ¬ (∀ r ∈ (updateStatus stringifyPlain storeOk "1700000000000" "archived"
        (pendingState [sampleOld])).1.reports, isStatusOption r.status = true) := by
  refine ⟨by decide, rfl, ?_⟩
  intro h
  have := h { sampleOld with status := "archived" } (by
    show _ ∈ [{ sampleOld with status := "archived" }]
    exact List.mem_singleton.mpr rfl)
  revert this
  decide

/-! ## Search terms -/

/-- C26.  The search terms of `findNearestMunicipalAuthority` are computed from
city and state alone.  For a non-empty city the array is the seven city-based
terms, in the order of script.js:793-799, followed by `<state> municipal
office` when the state is not empty; with an empty city and a non-empty state
it is the two state-based terms; with both empty it is empty, and then, for a
reverse-geocode response whose address gives neither a city nor a state, no
term is queried and what is shown is the `no office` information. -/
theorem searchTerms_spec (city state : String) (hcity : city ≠ "") :
    searchTerms city state =
        [city ++ " municipal corporation", city ++ " municipal office",
          city ++ " city corporation", city ++ " municipality",
          "municipal corporation " ++ city, city ++ " waste management",
          city ++ " sanitation department"] ++
        (if state = "" then [] else [state ++ " municipal office"]) ∧
      (state ≠ "" → searchTerms "" state =
        [state ++ " municipal office", state ++ " municipal corporation"]) ∧
      searchTerms "" "" = [] ∧
      (∀ {F : Type} [LinearOrderedField F] (M : MathOps F) (status : Nat) (address : Address)
          (search : String → FetchResult (List (SearchItem F))) (lat lon : F),
        statusOk status = true →
        orString address.city (orString address.town (orString address.village
          (orString address.municipality (orString address.county "")))) = "" →
        orString address.state (orString address.region "") = "" →
        findNearestMunicipalAuthority M
            (FetchResult.response status (Body.value { address := some address }))
            search lat lon =
          (MunicipalOutcome.noOffice "" "" (orString address.county "")
            (orString address.postcode "") (orString address.country ""), [])) := by
  refine ⟨?_, ?_, by decide, ?_⟩
  · by_cases hs : state = "" <;> simp [searchTerms, hcity, hs]
  · intro hs
    simp [searchTerms, hs]
  · intro F _ M status address search lat lon hok hc hs
    have hne : status ≠ 429 := by
      rintro rfl
      revert hok
      decide
    simp only [findNearestMunicipalAuthority, authorityTry, reverseStatusError, hne, hok,
      if_false, Bool.not_true, Bool.false_eq_true, hc, hs]
    rfl

/-- Witness of `searchTerms_spec`: city and state `Delhi`. -/
theorem searchTerms_spec_witness :
    searchTerms "Delhi" "Delhi" =
      ["Delhi municipal corporation", "Delhi municipal office", "Delhi city corporation",
        "Delhi municipality", "municipal corporation Delhi", "Delhi waste management",
        "Delhi sanitation department", "Delhi municipal office"] :=
  (searchTerms_spec "Delhi" "Delhi" (by decide)).1.trans (by decide)

/-! ## Manual location -/

/-- C27.  `saveManualLocation` accepts the pair exactly when both values are
numbers, the latitude in [-90, 90] and the longitude in [-180, 180]: then the
current coordinate becomes that pair with accuracy 0 and source `manual` and
nothing else changes; for every other pair of parse results the current
coordinate is left as it was and one alert is raised. -/
theorem saveManualLocation_spec (la lo : ℚ) (st : AppState)
    (hla : -90 ≤ la ∧ la ≤ 90) (hlo : -180 ≤ lo ∧ lo ≤ 180) :
    saveManualLocation (ParsedFloat.finite la) (ParsedFloat.finite lo) st =
        { st with
          currentLocation :=
            some { latitude := la, longitude := lo, accuracy := 0, source := "manual" } } ∧
      (∀ lat lon : ParsedFloat,
        ¬ (∃ a b, lat = ParsedFloat.finite a ∧ lon = ParsedFloat.finite b ∧
            (-90 ≤ a ∧ a ≤ 90) ∧ (-180 ≤ b ∧ b ≤ 180)) →
        (saveManualLocation lat lon st).currentLocation = st.currentLocation ∧
        (saveManualLocation lat lon st).reports = st.reports ∧
        ∃ a, saveManualLocation lat lon st = alert a st) := by
  constructor
  · have h1 : ¬ la < -90 := not_lt.mpr hla.1
    have h2 : ¬ la > 90 := not_lt.mpr hla.2
    have h3 : ¬ lo < -180 := not_lt.mpr hlo.1
    have h4 : ¬ lo > 180 := not_lt.mpr hlo.2
    simp [saveManualLocation, ParsedFloat.isNaN, ParsedFloat.lt, ParsedFloat.gt, h1, h2, h3, h4]
  · intro lat lon hrej
    have key : ∃ a, saveManualLocation lat lon st = alert a st := by
      unfold saveManualLocation
      split
      · exact ⟨_, rfl⟩
      · split
        · exact ⟨_, rfl⟩
        · split
          · exact ⟨_, rfl⟩
          · rename_i hnan hlat hlon
            exfalso
            apply hrej
            cases lat <;> cases lon <;>
              simp [ParsedFloat.isNaN, ParsedFloat.lt, ParsedFloat.gt] at hnan hlat hlon
            exact ⟨_, _, rfl, rfl, hlat, hlon⟩
    obtain ⟨a, ha⟩ := key
    rw [ha]
    exact ⟨rfl, rfl, a, rfl⟩

/-- Witness of `saveManualLocation_spec`: 28.6139 N 77.2090 E. -/
theorem saveManualLocation_spec_witness :
    saveManualLocation (ParsedFloat.finite 28.6139) (ParsedFloat.finite 77.2090)
        initialState =
      { initialState with
        currentLocation :=
          some { latitude := 28.6139, longitude := 77.2090, accuracy := 0,
                 source := "manual" } } :=
  (saveManualLocation_spec 28.6139 77.2090 initialState (by norm_num) (by norm_num)).1

/-! ## Report ids -/

/-- The value of the character of a digit is the digit. -/
theorem digitValue_digitChar (d : Nat) (h : d < 10) : digitValue (Nat.digitChar d) = d := by
  interval_cases d <;> rfl

/-- The character of a digit is not the minus sign. -/
theorem digitChar_ne_minus (d : Nat) (h : d < 10) : Nat.digitChar d ≠ '-' := by
  interval_cases d <;> decide

/-- Reading digits after an accumulated value shifts that value. -/
theorem foldl_digits (cs : List Char) :
    ∀ acc : Nat, cs.foldl (fun a c => a * 10 + digitValue c) acc =
      acc * 10 ^ cs.length + digitsValue cs := by
  induction cs with
  | nil => intro acc; simp [digitsValue]
  | cons c cs ih =>
    intro acc
    simp only [List.foldl_cons, digitsValue, List.length_cons]
    rw [ih (acc * 10 + digitValue c), ih (0 * 10 + digitValue c)]
    ring

/-- The digits written by `Nat.toDigitsCore` read back as the number. -/
theorem digitsValue_toDigitsCore :
    ∀ (fuel n : Nat) (ds : List Char), n < fuel →
      digitsValue (Nat.toDigitsCore 10 fuel n ds) = n * 10 ^ ds.length + digitsValue ds
  | 0, n, ds, h => absurd h (Nat.not_lt_zero n)
  | fuel + 1, n, ds, h => by
    rw [Nat.toDigitsCore]
    have hmod : n % 10 < 10 := Nat.mod_lt n (by decide)
    have hdecomp : n = 10 * (n / 10) + n % 10 := (Nat.div_add_mod n 10).symm
    by_cases hz : n / 10 = 0
    · simp only [hz, if_true]
      show List.foldl _ 0 (Nat.digitChar (n % 10) :: ds) = _
      rw [List.foldl_cons, foldl_digits, digitValue_digitChar _ hmod]
      have : n % 10 = n := by omega
      rw [this]
      ring
    · simp only [hz, if_false]
      rw [digitsValue_toDigitsCore fuel (n / 10) _ (by omega)]
      show _ + List.foldl _ 0 (Nat.digitChar (n % 10) :: ds) = _
      rw [List.foldl_cons, foldl_digits, digitValue_digitChar _ hmod, List.length_cons]
      have h10 : 10 ^ (ds.length + 1) = 10 * 10 ^ ds.length := by ring
      rw [h10]
      nth_rewrite 3 [hdecomp]
      ring

/-- The digits written by `Nat.toDigitsCore` hold no minus sign. -/
theorem toDigitsCore_no_minus :
    ∀ (fuel n : Nat) (ds : List Char), (∀ c ∈ ds, c ≠ '-') →
      ∀ c ∈ Nat.toDigitsCore 10 fuel n ds, c ≠ '-'
  | 0, _, ds, h => h
  | fuel + 1, n, ds, h => by
    rw [Nat.toDigitsCore]
    have hcons : ∀ c ∈ Nat.digitChar (n % 10) :: ds, c ≠ '-' := by
      intro c hc
      rcases List.mem_cons.mp hc with rfl | hc
      · exact digitChar_ne_minus _ (Nat.mod_lt n (by decide))
      · exact h c hc
    by_cases hz : n / 10 = 0
    · simp only [hz, if_true]
      exact hcons
    · simp only [hz, if_false]
      exact toDigitsCore_no_minus fuel (n / 10) _ hcons

/-- The decimal text of a natural number determines the number. -/
theorem natRepr_injective (a b : Nat) (h : Nat.repr a = Nat.repr b) : a = b := by
  have hd : Nat.toDigits 10 a = Nat.toDigits 10 b := by
    have := congrArg String.data h
    simpa [Nat.repr] using this
  have ha := digitsValue_toDigitsCore (a + 1) a [] (Nat.lt_succ_self a)
  have hb := digitsValue_toDigitsCore (b + 1) b [] (Nat.lt_succ_self b)
  unfold Nat.toDigits at hd
  rw [hd] at ha
  simp [digitsValue] at ha hb
  omega

/-- The decimal text of an integer determines the integer: `toString` of
`Date.now()` values is injective. -/
theorem intToString_injective (a b : Int) (h : toString a = toString b) : a = b := by
  have hminus : ∀ (m n : Nat), Nat.repr m ≠ "-" ++ Nat.repr n := by
    intro m n hmn
    have := congrArg String.data hmn
    have hmem : '-' ∈ (Nat.repr m).data := by
      rw [this]
      simp
    exact toDigitsCore_no_minus (m + 1) m [] (by simp) '-' (by simpa [Nat.repr, Nat.toDigits] using hmem) rfl
  cases a with
  | ofNat m =>
    cases b with
    | ofNat n =>
      have : Nat.repr m = Nat.repr n := h
      rw [natRepr_injective m n this]
    | negSucc n => exact absurd h (hminus m (n + 1))
  | negSucc m =>
    cases b with
    | ofNat n => exact absurd h.symm (hminus n (m + 1))
    | negSucc n =>
      have h' : "-" ++ Nat.repr (m + 1) = "-" ++ Nat.repr (n + 1) := h
      have hd := congrArg String.data h'
      simp only [String.data_append, List.append_cancel_left_eq] at hd
      have : Nat.repr (m + 1) = Nat.repr (n + 1) := String.ext hd
      have hmn : m = n := Nat.succ.inj (natRepr_injective _ _ this)
      rw [hmn]

/-- One submission leaves a sub-sequence of the collection with the new report
in front. -/
theorem submit_reports_sublist (cfg : Config) (stringify : List Report → String)
    (out : Nat → Option StoreError) (s : Submission) (st : AppState) :
    (handleFormSubmit cfg stringify s.env out (withPending s.image s.location st)).reports.Sublist
      (newReport cfg s.env s.image s.location :: st.reports) := by
  obtain ⟨env, image0, loc0⟩ := s
  rcases handleFormSubmit_reports_subset cfg stringify env out
    (withPending image0 loc0 st) with h | ⟨image, loc, hi, hl, h⟩
  · rw [h]
    exact List.sublist_cons_self _ _
  · cases hi
    cases hl
    exact h

/-- The ids stay pairwise distinct over a run of submissions whose clock
readings strictly increase and lie at or above `bound`, when the ids present
are the texts of readings below `bound`. -/
theorem submitAll_ids_nodup (cfg : Config) (stringify : List Report → String)
    (out : Nat → Option StoreError) :
    ∀ (subs : List Submission) (st : AppState) (bound : Int),
      (∀ r ∈ st.reports, ∃ k : Int, r.id = toString k ∧ k < bound) →
      (st.reports.map (fun r => r.id)).Nodup →
      (∀ s ∈ subs, bound ≤ s.env.nowId) →
      (subs.map (fun s => s.env.nowId)).Pairwise (fun a b => a < b) →
      ((submitAll cfg stringify out subs st).reports.map (fun r => r.id)).Nodup
  | [], st, _, _, hnodup, _, _ => hnodup
  | s :: rest, st, bound, hids, hnodup, hbound, hclock => by
    rw [submitAll]
    have hsub := submit_reports_sublist cfg stringify out s st
    have hs : bound ≤ s.env.nowId := hbound s (List.mem_cons_self _ _)
    rw [List.map_cons, List.pairwise_cons] at hclock
    have hnew : (newReport cfg s.env s.image s.location).id = toString s.env.nowId := rfl
    apply submitAll_ids_nodup cfg stringify out rest _ (s.env.nowId + 1)
    · intro r hr
      rcases List.mem_cons.mp (hsub.subset hr) with rfl | hmem
      · exact ⟨s.env.nowId, hnew, by omega⟩
      · obtain ⟨k, hk, hlt⟩ := hids r hmem
        exact ⟨k, hk, by omega⟩
    · apply List.Nodup.sublist (List.Sublist.map _ hsub)
      rw [List.map_cons, List.nodup_cons]
      refine ⟨?_, hnodup⟩
      intro hmem
      obtain ⟨r, hr, hrid⟩ := List.mem_map.mp hmem
      obtain ⟨k, hk, hlt⟩ := hids r hr
      have : toString k = toString s.env.nowId := by rw [← hk, hrid, hnew]
      have := intToString_injective _ _ this
      omega
    · intro t ht
      have := hclock.1 t.env.nowId (List.mem_map.mpr ⟨t, ht, rfl⟩)
      omega
    · exact hclock.2

/-- C23, as amended.  Starting from an empty collection, after every run of
submissions whose clock readings strictly increase, whatever the store does,
the ids of the reports in the collection are pairwise distinct. -/
theorem report_ids_distinct (cfg : Config) (stringify : List Report → String)
    (out : Nat → Option StoreError) (subs : List Submission) (st : AppState)
    (hempty : st.reports = [])
    (hclock : (subs.map (fun s => s.env.nowId)).Pairwise (fun a b => a < b)) :
    ((submitAll cfg stringify out subs st).reports.map (fun r => r.id)).Nodup := by
  cases subs with
  | nil => simp [submitAll, hempty]
  | cons s rest =>
    apply submitAll_ids_nodup cfg stringify out (s :: rest) st s.env.nowId
    · intro r hr
      rw [hempty] at hr
      cases hr
    · rw [hempty]
      exact List.nodup_nil
    · intro t ht
      rcases List.mem_cons.mp ht with rfl | ht
      · exact le_refl _
      · rw [List.map_cons, List.pairwise_cons] at hclock
        exact le_of_lt (hclock.1 t.env.nowId (List.mem_map.mpr ⟨t, ht, rfl⟩))
    · exact hclock

set_option maxRecDepth 100000 in
/-- The serialized size of two copies of the sample report. -/
theorem dataSize_twice : dataSizeOf stringifyPlain [sampleNew, sampleNew] = 399 := by
  have h : (stringifyPlain [sampleNew, sampleNew]).utf8ByteSize = 399 := by decide
  simp [dataSizeOf, h]

/-- The collection after the sample submission is made twice from the initial
state, the store accepting every write. -/
theorem submitAll_same_reading :
    (submitAll defaultConfig stringifyPlain storeOk [sampleSubmission, sampleSubmission]
      initialState).reports = [sampleNew, sampleNew] := by
  have hnew : newReport defaultConfig sampleSubmission.env sampleSubmission.image
      sampleSubmission.location = sampleNew := sampleNew_eq
  have h1 : (handleFormSubmit defaultConfig stringifyPlain sampleSubmission.env storeOk
      (withPending sampleSubmission.image sampleSubmission.location initialState)).reports =
      [sampleNew] := by
    rw [handleFormSubmit_reports_of_le defaultConfig stringifyPlain sampleSubmission.env storeOk
      (withPending sampleSubmission.image sampleSubmission.location initialState)
      sampleSubmission.image sampleSubmission.location rfl (by decide) rfl
      (by
        rw [hnew, threshold_defaultConfig]
        show dataSizeOf stringifyPlain [sampleNew] ≤ _
        rw [dataSize_one]; norm_num)]
    rw [hnew]
    simp [storeOk, withPending, initialState]
  simp only [submitAll]
  generalize handleFormSubmit defaultConfig stringifyPlain sampleSubmission.env storeOk
      (withPending sampleSubmission.image sampleSubmission.location initialState) = st1 at h1
  have hrep : (withPending sampleSubmission.image sampleSubmission.location st1).reports =
      [sampleNew] := h1
  rw [handleFormSubmit_reports_of_le defaultConfig stringifyPlain sampleSubmission.env storeOk
    (withPending sampleSubmission.image sampleSubmission.location st1)
    sampleSubmission.image sampleSubmission.location rfl (by decide) rfl
    (by
      rw [hnew, threshold_defaultConfig, hrep, dataSize_twice]; norm_num)]
  rw [hnew, hrep]
  simp [storeOk]

/-- Witness of `report_ids_distinct`: two submissions, at the readings
1800000000000 and 1800000000001. -/
theorem report_ids_distinct_witness :
    ((submitAll defaultConfig stringifyPlain storeOk
      [sampleSubmission,
        { sampleSubmission with env := { sampleEnv with nowId := 1800000000001 } }]
      initialState).reports.map (fun r => r.id)).Nodup :=
  report_ids_distinct defaultConfig stringifyPlain storeOk
    [sampleSubmission,
      { sampleSubmission with env := { sampleEnv with nowId := 1800000000001 } }]
    initialState rfl (by simp [sampleSubmission, sampleEnv])

/-- C23, counterexample.  From the initial state, two submissions at the same
clock reading 1800000000000 (readings that do not decrease), both accepted by
the store: the collection holds two reports with the id `1800000000000`. -/
theorem report_ids_counterexample :
    ([sampleSubmission, sampleSubmission].map (fun s => s.env.nowId)).Pairwise
        (fun a b => a ≤ b) ∧
      (submitAll defaultConfig stringifyPlain storeOk [sampleSubmission, sampleSubmission]
        initialState).reports.map (fun r => r.id) = ["1800000000000", "1800000000000"] ∧
      ¬ ((submitAll defaultConfig stringifyPlain storeOk [sampleSubmission, sampleSubmission]
        initialState).reports.map (fun r => r.id)).Nodup := by
  rw [submitAll_same_reading]
  refine ⟨by simp, rfl, ?_⟩
  simp [sampleNew]

end EcoSphere
